import Mathlib

/-!
Verification of the find-pwned-password repository: a streaming SHA-1
digest engine (`src/sha1.c`) and two binary-search lookup programs over
sorted corpora of password-hash records (`src/find-pwned.c`, binary
24-byte records, and `src/find-pwned-password-hash.c`, text 63-byte
records).

Machine integers are modelled as `Nat` with explicit reduction modulo
`2^32` / `2^64` where the C code can overflow; byte buffers are `List Nat`
(each element a byte value); C strings are the byte list up to the
terminating NUL.  NULL pointers, where a claim needs them, are modelled
with `Option`.
-/

namespace Sha1

/-- `ROTATE_LEFT(_x,_c)` from src/sha1.c: 32-bit left rotation.  The C
left shift of a `uint32_t` truncates modulo `2^32`. -/
def rotl (x c : Nat) : Nat :=
  ((x <<< c) % 4294967296) ||| (x >>> (32 - c))

/-- The first loop of `sha1_hash_block`: load big-endian 32-bit words
`w[0..15]` from the 64 block bytes. -/
def w16 : List Nat → List Nat
  | b0 :: b1 :: b2 :: b3 :: rest =>
      ((b0 <<< 24) + (b1 <<< 16) + (b2 <<< 8) + b3) :: w16 rest
  | _ => []

/-- The second loop of `sha1_hash_block`: extend the schedule by `fuel`
words using `w[i] = rotl1 (w[i-3] ^ w[i-8] ^ w[i-14] ^ w[i-16])`.  The
accumulator list holds the schedule in reverse (most recent word first),
so the four taps sit at positions 2, 7, 13 and 15. -/
def extendW : Nat → List Nat → List Nat
  | 0, rev => rev
  | fuel + 1, rev =>
    match rev with
    | a1 :: a2 :: a3 :: a4 :: a5 :: a6 :: a7 :: a8 ::
      a9 :: a10 :: a11 :: a12 :: a13 :: a14 :: a15 :: a16 :: rest =>
        extendW fuel (rotl (a3 ^^^ a8 ^^^ a14 ^^^ a16) 1 ::
          a1 :: a2 :: a3 :: a4 :: a5 :: a6 :: a7 :: a8 ::
          a9 :: a10 :: a11 :: a12 :: a13 :: a14 :: a15 :: a16 :: rest)
    | short => short

/-- The full 80-word message schedule `w[0x00..0x50]` of `sha1_hash_block`. -/
def sha1_w (block_data : List Nat) : List Nat :=
  (extendW 64 (w16 block_data).reverse).reverse

/-- The 80-round main loop of `sha1_hash_block` over working variables
`(a, b, c, d, e)`; `i` is the round index selecting `(f, k)`. -/
def sha1_rounds : List Nat → Nat → Nat × Nat × Nat × Nat × Nat → Nat × Nat × Nat × Nat × Nat
  | [], _, st => st
  | wi :: ws, i, (a, b, c, d, e) =>
    let f :=
      if i < 20 then (b &&& c) ||| ((b ^^^ 0xFFFFFFFF) &&& d)
      else if i < 40 then b ^^^ c ^^^ d
      else if i < 60 then (b &&& c) ||| (b &&& d) ||| (c &&& d)
      else b ^^^ c ^^^ d
    let k :=
      if i < 20 then 0x5A827999
      else if i < 40 then 0x6ED9EBA1
      else if i < 60 then 0x8F1BBCDC
      else 0xCA62C1D6
    let temp := (rotl a 5 + f + e + k + wi) % 4294967296
    sha1_rounds ws (i + 1) (temp, a, rotl b 30, c, d)

/-- `sha1_hash_block(h, block_data)` from src/sha1.c: one compression
round over a 64-byte block, adding the working variables back into the
five-word accumulator modulo `2^32`. -/
def sha1_hash_block (h : Nat × Nat × Nat × Nat × Nat) (block_data : List Nat) :
    Nat × Nat × Nat × Nat × Nat :=
  match h, sha1_rounds (sha1_w block_data) 0 h with
  | (h0, h1, h2, h3, h4), (a, b, c, d, e) =>
    ((h0 + a) % 4294967296, (h1 + b) % 4294967296, (h2 + c) % 4294967296,
     (h3 + d) % 4294967296, (h4 + e) % 4294967296)

/-- `sha1_t` from src/sha1.h: accumulator `h[5]`, 64-byte staging block,
64-bit byte counter, 32-bit block counter and flags. -/
@[ext]
structure sha1_t where
  h : Nat × Nat × Nat × Nat × Nat
  block : List Nat
  bytes : Nat
  blocks : Nat
  flags : Nat
deriving Repr, DecidableEq

/-- The constant `SHA1_INIT()` state (the global constant the C code
copies from in `sha1_init_flags`). -/
def sha1_init_state : sha1_t :=
  ⟨(0x67452301, 0xEFCDAB89, 0x98BADCFE, 0x10325476, 0xC3D2E1F0),
    List.replicate 64 0, 0, 0, 0⟩

/-- `sha1_init_flags(sha1, flags)` on a non-NULL state: `*sha1 =
sha1_initialized; sha1->flags = flags`. -/
def sha1_init_flags (flags : Nat) : sha1_t :=
  { sha1_init_state with flags := flags }

/-- `sha1_init(sha1)`: `sha1_init_flags` with `SHA1_FLAGS_DEFAULT = 0`. -/
def sha1_init : sha1_t :=
  sha1_init_flags 0

/-- `memcpy(&block[pos], src, src.length)`: write the bytes of `src` into
the block starting at `pos`. -/
def memcpy_into (block : List Nat) (pos : Nat) (src : List Nat) : List Nat :=
  match src with
  | [] => block
  | b :: rest => memcpy_into (block.set pos b) (pos + 1) rest

/-- The "repeat for each full block" while-loop of `sha1_update` plus the
final "pour the remainder" copy. -/
def sha1_update_loop (s : sha1_t) (data : List Nat) : sha1_t :=
  if _h64 : 64 ≤ data.length then
    let blk := memcpy_into s.block 0 (data.take 64)
    sha1_update_loop
      { s with block := blk,
               bytes := (s.bytes + 64) % 18446744073709551616,
               h := sha1_hash_block s.h blk,
               blocks := (s.blocks + 1) % 4294967296 }
      (data.drop 64)
  else if data.length ≠ 0 then
    { s with block := memcpy_into s.block 0 data,
             bytes := (s.bytes + data.length) % 18446744073709551616 }
  else s
termination_by data.length
decreasing_by simp [List.length_drop]; omega

/-- `sha1_update(sha1, data, size)` from src/sha1.c on a non-NULL state
and data pointer; `data` is the list of the `size` input bytes (the
`size == 0` early return is the `data = []` case). -/
def sha1_update (s : sha1_t) (data : List Nat) : sha1_t :=
  if data.length = 0 then s
  else
    let bytes_used_in_block := s.bytes % 64
    let bytes_free_in_block := 64 - bytes_used_in_block
    if data.length < bytes_free_in_block then
      { s with block := memcpy_into s.block bytes_used_in_block data,
               bytes := (s.bytes + data.length) % 18446744073709551616 }
    else
      let blk := memcpy_into s.block bytes_used_in_block (data.take bytes_free_in_block)
      sha1_update_loop
        { s with block := blk,
                 bytes := (s.bytes + bytes_free_in_block) % 18446744073709551616,
                 h := sha1_hash_block s.h blk,
                 blocks := (s.blocks + 1) % 4294967296 }
        (data.drop bytes_free_in_block)

/-- `memset(&block[pos], 0, n)`. -/
def memset_zero (block : List Nat) (pos n : Nat) : List Nat :=
  match n with
  | 0 => block
  | m + 1 => memset_zero (block.set pos 0) (pos + 1) m

/-- The eight stores of `sha1_end` writing the 64-bit bit count
big-endian into block bytes 56..63. -/
def write_bits_be (block : List Nat) (bits : Nat) : List Nat :=
  (((((((block.set 56 ((bits >>> 56) &&& 255)).set 57
    ((bits >>> 48) &&& 255)).set 58 ((bits >>> 40) &&& 255)).set 59
    ((bits >>> 32) &&& 255)).set 60 ((bits >>> 24) &&& 255)).set 61
    ((bits >>> 16) &&& 255)).set 62 ((bits >>> 8) &&& 255)).set 63
    (bits &&& 255)

/-- `sha1_end(sha1)` from src/sha1.c on a non-NULL state: append `0x80`,
pad with zeros (hashing an extra block when the length field does not
fit), write `8 * bytes` big-endian into bytes 56..63 and hash. -/
def sha1_end (s : sha1_t) : sha1_t :=
  let u0 := s.bytes % 64
  let b1 := s.block.set u0 0x80
  let u1 := u0 + 1
  let bits := (8 * s.bytes) % 18446744073709551616
  if u1 > 56 then
    let b2 := memset_zero b1 u1 (64 - u1)
    let h2 := sha1_hash_block s.h b2
    let b3 := write_bits_be (memset_zero b2 0 56) bits
    { s with h := sha1_hash_block h2 b3, block := b3,
             blocks := ((s.blocks + 1) % 4294967296 + 1) % 4294967296 }
  else
    let b2 := memset_zero b1 u1 (56 - u1)
    let b3 := write_bits_be b2 bits
    { s with h := sha1_hash_block s.h b3, block := b3,
             blocks := (s.blocks + 1) % 4294967296 }

/-- Word `j` of the accumulator (C array indexing `h[j]`). -/
def word_of (h : Nat × Nat × Nat × Nat × Nat) : Nat → Nat
  | 0 => h.1
  | 1 => h.2.1
  | 2 => h.2.2.1
  | 3 => h.2.2.2.1
  | _ => h.2.2.2.2

/-- Byte `j` of the accumulator as `sha1_text` reads it through
`(const uint8_t*) &sha1->h[0]` on a little-endian machine: byte `j % 4`
of word `j / 4`. -/
def h_byte (h : Nat × Nat × Nat × Nat × Nat) (j : Nat) : Nat :=
  (word_of h (j / 4) >>> (8 * (j % 4))) &&& 255

/-- `sha1_text(sha1, text)` from src/sha1.c: render the 20 digest bytes
(read with the `i ^ 3` byte-swap) as 40 hex characters, upper case when
`SHA1_FLAG_UPPER_CASE` is set. -/
def sha1_text (s : sha1_t) : String :=
  let tohex := if s.flags &&& 1 ≠ 0 then "0123456789ABCDEF" else "0123456789abcdef"
  String.mk (List.flatten ((List.range 20).map (fun i =>
    [tohex.toList.getD ((h_byte s.h (i ^^^ 3) >>> 4) &&& 15) (Char.ofNat 0),
     tohex.toList.getD (h_byte s.h (i ^^^ 3) &&& 15) (Char.ofNat 0)])))

/-- `sha1_buffer_flags(data, size, text, flags)` from src/sha1.c:
one-shot `sha1_text (sha1_end (sha1_update (sha1_init_flags flags) data))`. -/
def sha1_buffer_flags (data : List Nat) (flags : Nat) : String :=
  sha1_text (sha1_end (sha1_update (sha1_init_flags flags) data))

/-- `sha1_buffer(data, size, text)`: `sha1_buffer_flags` with default flags. -/
def sha1_buffer (data : List Nat) : String :=
  sha1_buffer_flags data 0

/-- Modelled from the spec: `sha1_buffer_bin` is declared in src/sha1.h and
called by src/find-pwned.c (password mode) but its definition is not among
the repository's source files.  Per spec §4.1, `digest_buffer_binary(bytes)
-> 20-byte digest` is the one-shot composition of init, update and finish
returning the 20 digest bytes (in the standard big-endian rendering order,
the same byte order `sha1_text` prints). -/
def sha1_buffer_bin (data : List Nat) : List Nat :=
  let s := sha1_end (sha1_update (sha1_init_flags 0) data)
  (List.range 20).map (fun j => h_byte s.h (j ^^^ 3))

/-- `sha1_init_flags(sha1, flags)` at the pointer level (a NULL `sha1_t*`
is `none`): the NULL check of src/sha1.c lines 24-28. -/
def sha1_init_flags_ptr (s : Option sha1_t) (flags : Nat) : Option sha1_t :=
  match s with
  | none => none
  | some _ => some (sha1_init_flags flags)

/-- `sha1_update(sha1, data, size)` at the pointer level: the
`(NULL == sha1) || (NULL == data) || (0 == size)` early return of
src/sha1.c lines 99-101 (`size = 0` is the `data.take 0 = []` case of the
byte-list model). -/
def sha1_update_ptr (s : Option sha1_t) (data : Option (List Nat)) (size : Nat) :
    Option sha1_t :=
  match s, data with
  | none, _ => none
  | some st, none => some st
  | some st, some d => some (sha1_update st (d.take size))

/-- `sha1_end(sha1)` at the pointer level: the NULL check of src/sha1.c
lines 153-155. -/
def sha1_end_ptr (s : Option sha1_t) : Option sha1_t :=
  match s with
  | none => none
  | some st => some (sha1_end st)

/-- The effect of `sha1_update` restricted to a single input byte: stage it
at offset `bytes % 64` and run the compression round when it completes the
block.  This is the one-byte-at-a-time reference absorber `sha1_update` is
proved to refine (`sha1_update_eq_absorb`). -/
def sha1_update_byte (s : sha1_t) (b : Nat) : sha1_t :=
  if (s.bytes + 1) % 18446744073709551616 % 64 = 0 then
    { s with block := s.block.set (s.bytes % 64) b,
             bytes := (s.bytes + 1) % 18446744073709551616,
             h := sha1_hash_block s.h (s.block.set (s.bytes % 64) b),
             blocks := (s.blocks + 1) % 4294967296 }
  else
    { s with block := s.block.set (s.bytes % 64) b,
             bytes := (s.bytes + 1) % 18446744073709551616 }

/-- Absorb a byte sequence one byte at a time. -/
def sha1_absorb (s : sha1_t) (data : List Nat) : sha1_t :=
  data.foldl sha1_update_byte s

/-- The 64-bit big-endian byte rendering of the bit count, as the eight
stores of `sha1_end` produce it. -/
def be64_bytes (bits : Nat) : List Nat :=
  [(bits >>> 56) &&& 255, (bits >>> 48) &&& 255, (bits >>> 40) &&& 255,
   (bits >>> 32) &&& 255, (bits >>> 24) &&& 255, (bits >>> 16) &&& 255,
   (bits >>> 8) &&& 255, bits &&& 255]

/-- The padding behaviour of `sha1_end` as spec §4.1 `finish` states it:
append the single byte `0x80`, then zero bytes until exactly 8 bytes remain
in the current block — or in a freshly started block when fewer than 8
bytes remain after the `0x80` — write the total input length in bits
(`8 · bytes`, as a 64-bit value) big-endian into those final 8 bytes, and
run the compression round on each block so filled. -/
def sha1_end_padding (s : sha1_t) : sha1_t :=
  if s.bytes % 64 + 1 ≤ 56 then
    { s with
        h := sha1_hash_block s.h (s.block.take (s.bytes % 64) ++ 128 ::
          (List.replicate (55 - s.bytes % 64) 0 ++
            be64_bytes ((8 * s.bytes) % 18446744073709551616))),
        block := s.block.take (s.bytes % 64) ++ 128 ::
          (List.replicate (55 - s.bytes % 64) 0 ++
            be64_bytes ((8 * s.bytes) % 18446744073709551616)),
        blocks := (s.blocks + 1) % 4294967296 }
  else
    { s with
        h := sha1_hash_block (sha1_hash_block s.h (s.block.take (s.bytes % 64) ++ 128 ::
            List.replicate (63 - s.bytes % 64) 0))
          (List.replicate 56 0 ++ be64_bytes ((8 * s.bytes) % 18446744073709551616)),
        block := List.replicate 56 0 ++
          be64_bytes ((8 * s.bytes) % 18446744073709551616),
        blocks := ((s.blocks + 1) % 4294967296 + 1) % 4294967296 }

/-- The all-`'a'` 64-byte block (`0x61` = 97) that every full block of the
million-`'a'` test vector consists of. -/
def blockC : List Nat := List.replicate 64 97

def roundC79 (a b c d e : Nat) : Nat × Nat × Nat × Nat × Nat :=
  ((Nat.mod (Nat.add (Nat.add (Nat.add (Nat.add (Nat.lor (Nat.mod (Nat.shiftLeft a 5) 4294967296) (Nat.shiftRight a 27)) (Nat.xor (Nat.xor b c) d)) e) 3395469782) 943208504) 4294967296), a, (Nat.lor (Nat.mod (Nat.shiftLeft b 30) 4294967296) (Nat.shiftRight b 2)), c, d)

def roundC78 (a b c d e : Nat) : Nat × Nat × Nat × Nat × Nat :=
  roundC79 (Nat.mod (Nat.add (Nat.add (Nat.add (Nat.add (Nat.lor (Nat.mod (Nat.shiftLeft a 5) 4294967296) (Nat.shiftRight a 27)) (Nat.xor (Nat.xor b c) d)) e) 3395469782) 2762253476) 4294967296) a (Nat.lor (Nat.mod (Nat.shiftLeft b 30) 4294967296) (Nat.shiftRight b 2)) c d

def roundC77 (a b c d e : Nat) : Nat × Nat × Nat × Nat × Nat :=
  roundC78 (Nat.mod (Nat.add (Nat.add (Nat.add (Nat.add (Nat.lor (Nat.mod (Nat.shiftLeft a 5) 4294967296) (Nat.shiftRight a 27)) (Nat.xor (Nat.xor b c) d)) e) 3395469782) 3722304989) 4294967296) a (Nat.lor (Nat.mod (Nat.shiftLeft b 30) 4294967296) (Nat.shiftRight b 2)) c d

def roundC76 (a b c d e : Nat) : Nat × Nat × Nat × Nat × Nat :=
  roundC77 (Nat.mod (Nat.add (Nat.add (Nat.add (Nat.add (Nat.lor (Nat.mod (Nat.shiftLeft a 5) 4294967296) (Nat.shiftRight a 27)) (Nat.xor (Nat.xor b c) d)) e) 3395469782) 3722304989) 4294967296) a (Nat.lor (Nat.mod (Nat.shiftLeft b 30) 4294967296) (Nat.shiftRight b 2)) c d

def roundC75 (a b c d e : Nat) : Nat × Nat × Nat × Nat × Nat :=
  roundC76 (Nat.mod (Nat.add (Nat.add (Nat.add (Nat.add (Nat.lor (Nat.mod (Nat.shiftLeft a 5) 4294967296) (Nat.shiftRight a 27)) (Nat.xor (Nat.xor b c) d)) e) 3395469782) 2560137368) 4294967296) a (Nat.lor (Nat.mod (Nat.shiftLeft b 30) 4294967296) (Nat.shiftRight b 2)) c d

def roundC74 (a b c d e : Nat) : Nat × Nat × Nat × Nat × Nat :=
  roundC75 (Nat.mod (Nat.add (Nat.add (Nat.add (Nat.add (Nat.lor (Nat.mod (Nat.shiftLeft a 5) 4294967296) (Nat.shiftRight a 27)) (Nat.xor (Nat.xor b c) d)) e) 3395469782) 2475922323) 4294967296) a (Nat.lor (Nat.mod (Nat.shiftLeft b 30) 4294967296) (Nat.shiftRight b 2)) c d

def roundC73 (a b c d e : Nat) : Nat × Nat × Nat × Nat × Nat :=
  roundC74 (Nat.mod (Nat.add (Nat.add (Nat.add (Nat.add (Nat.lor (Nat.mod (Nat.shiftLeft a 5) 4294967296) (Nat.shiftRight a 27)) (Nat.xor (Nat.xor b c) d)) e) 3395469782) 2475922323) 4294967296) a (Nat.lor (Nat.mod (Nat.shiftLeft b 30) 4294967296) (Nat.shiftRight b 2)) c d

def roundC72 (a b c d e : Nat) : Nat × Nat × Nat × Nat × Nat :=
  roundC73 (Nat.mod (Nat.add (Nat.add (Nat.add (Nat.add (Nat.lor (Nat.mod (Nat.shiftLeft a 5) 4294967296) (Nat.shiftRight a 27)) (Nat.xor (Nat.xor b c) d)) e) 3395469782) 2560137368) 4294967296) a (Nat.lor (Nat.mod (Nat.shiftLeft b 30) 4294967296) (Nat.shiftRight b 2)) c d

def roundC71 (a b c d e : Nat) : Nat × Nat × Nat × Nat × Nat :=
  roundC72 (Nat.mod (Nat.add (Nat.add (Nat.add (Nat.add (Nat.lor (Nat.mod (Nat.shiftLeft a 5) 4294967296) (Nat.shiftRight a 27)) (Nat.xor (Nat.xor b c) d)) e) 3395469782) 1684300900) 4294967296) a (Nat.lor (Nat.mod (Nat.shiftLeft b 30) 4294967296) (Nat.shiftRight b 2)) c d

def roundC70 (a b c d e : Nat) : Nat × Nat × Nat × Nat × Nat :=
  roundC71 (Nat.mod (Nat.add (Nat.add (Nat.add (Nat.add (Nat.lor (Nat.mod (Nat.shiftLeft a 5) 4294967296) (Nat.shiftRight a 27)) (Nat.xor (Nat.xor b c) d)) e) 3395469782) 3755991007) 4294967296) a (Nat.lor (Nat.mod (Nat.shiftLeft b 30) 4294967296) (Nat.shiftRight b 2)) c d

def roundC69 (a b c d e : Nat) : Nat × Nat × Nat × Nat × Nat :=
  roundC70 (Nat.mod (Nat.add (Nat.add (Nat.add (Nat.add (Nat.lor (Nat.mod (Nat.shiftLeft a 5) 4294967296) (Nat.shiftRight a 27)) (Nat.xor (Nat.xor b c) d)) e) 3395469782) 1364283729) 4294967296) a (Nat.lor (Nat.mod (Nat.shiftLeft b 30) 4294967296) (Nat.shiftRight b 2)) c d

def roundC68 (a b c d e : Nat) : Nat × Nat × Nat × Nat × Nat :=
  roundC69 (Nat.mod (Nat.add (Nat.add (Nat.add (Nat.add (Nat.lor (Nat.mod (Nat.shiftLeft a 5) 4294967296) (Nat.shiftRight a 27)) (Nat.xor (Nat.xor b c) d)) e) 3395469782) 1364283729) 4294967296) a (Nat.lor (Nat.mod (Nat.shiftLeft b 30) 4294967296) (Nat.shiftRight b 2)) c d

def roundC67 (a b c d e : Nat) : Nat × Nat × Nat × Nat × Nat :=
  roundC68 (Nat.mod (Nat.add (Nat.add (Nat.add (Nat.add (Nat.lor (Nat.mod (Nat.shiftLeft a 5) 4294967296) (Nat.shiftRight a 27)) (Nat.xor (Nat.xor b c) d)) e) 3395469782) 2694881440) 4294967296) a (Nat.lor (Nat.mod (Nat.shiftLeft b 30) 4294967296) (Nat.shiftRight b 2)) c d

def roundC66 (a b c d e : Nat) : Nat × Nat × Nat × Nat × Nat :=
  roundC67 (Nat.mod (Nat.add (Nat.add (Nat.add (Nat.add (Nat.lor (Nat.mod (Nat.shiftLeft a 5) 4294967296) (Nat.shiftRight a 27)) (Nat.xor (Nat.xor b c) d)) e) 3395469782) 3537031890) 4294967296) a (Nat.lor (Nat.mod (Nat.shiftLeft b 30) 4294967296) (Nat.shiftRight b 2)) c d

def roundC65 (a b c d e : Nat) : Nat × Nat × Nat × Nat × Nat :=
  roundC66 (Nat.mod (Nat.add (Nat.add (Nat.add (Nat.add (Nat.lor (Nat.mod (Nat.shiftLeft a 5) 4294967296) (Nat.shiftRight a 27)) (Nat.xor (Nat.xor b c) d)) e) 3395469782) 1313754702) 4294967296) a (Nat.lor (Nat.mod (Nat.shiftLeft b 30) 4294967296) (Nat.shiftRight b 2)) c d

def roundC64 (a b c d e : Nat) : Nat × Nat × Nat × Nat × Nat :=
  roundC65 (Nat.mod (Nat.add (Nat.add (Nat.add (Nat.add (Nat.lor (Nat.mod (Nat.shiftLeft a 5) 4294967296) (Nat.shiftRight a 27)) (Nat.xor (Nat.xor b c) d)) e) 3395469782) 1313754702) 4294967296) a (Nat.lor (Nat.mod (Nat.shiftLeft b 30) 4294967296) (Nat.shiftRight b 2)) c d

def roundC63 (a b c d e : Nat) : Nat × Nat × Nat × Nat × Nat :=
  roundC64 (Nat.mod (Nat.add (Nat.add (Nat.add (Nat.add (Nat.lor (Nat.mod (Nat.shiftLeft a 5) 4294967296) (Nat.shiftRight a 27)) (Nat.xor (Nat.xor b c) d)) e) 3395469782) 3958107115) 4294967296) a (Nat.lor (Nat.mod (Nat.shiftLeft b 30) 4294967296) (Nat.shiftRight b 2)) c d

def roundC62 (a b c d e : Nat) : Nat × Nat × Nat × Nat × Nat :=
  roundC63 (Nat.mod (Nat.add (Nat.add (Nat.add (Nat.add (Nat.lor (Nat.mod (Nat.shiftLeft a 5) 4294967296) (Nat.shiftRight a 27)) (Nat.xor (Nat.xor b c) d)) e) 3395469782) 1532713819) 4294967296) a (Nat.lor (Nat.mod (Nat.shiftLeft b 30) 4294967296) (Nat.shiftRight b 2)) c d

def roundC61 (a b c d e : Nat) : Nat × Nat × Nat × Nat × Nat :=
  roundC62 (Nat.mod (Nat.add (Nat.add (Nat.add (Nat.add (Nat.lor (Nat.mod (Nat.shiftLeft a 5) 4294967296) (Nat.shiftRight a 27)) (Nat.xor (Nat.xor b c) d)) e) 3395469782) 3351758791) 4294967296) a (Nat.lor (Nat.mod (Nat.shiftLeft b 30) 4294967296) (Nat.shiftRight b 2)) c d

def roundC60 (a b c d e : Nat) : Nat × Nat × Nat × Nat × Nat :=
  roundC61 (Nat.mod (Nat.add (Nat.add (Nat.add (Nat.add (Nat.lor (Nat.mod (Nat.shiftLeft a 5) 4294967296) (Nat.shiftRight a 27)) (Nat.xor (Nat.xor b c) d)) e) 3395469782) 2004318071) 4294967296) a (Nat.lor (Nat.mod (Nat.shiftLeft b 30) 4294967296) (Nat.shiftRight b 2)) c d

def roundC59 (a b c d e : Nat) : Nat × Nat × Nat × Nat × Nat :=
  roundC60 (Nat.mod (Nat.add (Nat.add (Nat.add (Nat.add (Nat.lor (Nat.mod (Nat.shiftLeft a 5) 4294967296) (Nat.shiftRight a 27)) (Nat.lor (Nat.lor (Nat.land b c) (Nat.land b d)) (Nat.land c d))) e) 2400959708) 3014898611) 4294967296) a (Nat.lor (Nat.mod (Nat.shiftLeft b 30) 4294967296) (Nat.shiftRight b 2)) c d

def roundC58 (a b c d e : Nat) : Nat × Nat × Nat × Nat × Nat :=
  roundC59 (Nat.mod (Nat.add (Nat.add (Nat.add (Nat.add (Nat.lor (Nat.mod (Nat.shiftLeft a 5) 4294967296) (Nat.shiftRight a 27)) (Nat.lor (Nat.lor (Nat.land b c) (Nat.land b d)) (Nat.land c d))) e) 2400959708) 134744072) 4294967296) a (Nat.lor (Nat.mod (Nat.shiftLeft b 30) 4294967296) (Nat.shiftRight b 2)) c d

def roundC57 (a b c d e : Nat) : Nat × Nat × Nat × Nat × Nat :=
  roundC58 (Nat.mod (Nat.add (Nat.add (Nat.add (Nat.add (Nat.lor (Nat.mod (Nat.shiftLeft a 5) 4294967296) (Nat.shiftRight a 27)) (Nat.lor (Nat.lor (Nat.land b c) (Nat.land b d)) (Nat.land c d))) e) 2400959708) 3958107115) 4294967296) a (Nat.lor (Nat.mod (Nat.shiftLeft b 30) 4294967296) (Nat.shiftRight b 2)) c d

def roundC56 (a b c d e : Nat) : Nat × Nat × Nat × Nat × Nat :=
  roundC57 (Nat.mod (Nat.add (Nat.add (Nat.add (Nat.add (Nat.lor (Nat.mod (Nat.shiftLeft a 5) 4294967296) (Nat.shiftRight a 27)) (Nat.lor (Nat.lor (Nat.land b c) (Nat.land b d)) (Nat.land c d))) e) 2400959708) 1532713819) 4294967296) a (Nat.lor (Nat.mod (Nat.shiftLeft b 30) 4294967296) (Nat.shiftRight b 2)) c d

def roundC55 (a b c d e : Nat) : Nat × Nat × Nat × Nat × Nat :=
  roundC56 (Nat.mod (Nat.add (Nat.add (Nat.add (Nat.add (Nat.lor (Nat.mod (Nat.shiftLeft a 5) 4294967296) (Nat.shiftRight a 27)) (Nat.lor (Nat.lor (Nat.land b c) (Nat.land b d)) (Nat.land c d))) e) 2400959708) 1667457891) 4294967296) a (Nat.lor (Nat.mod (Nat.shiftLeft b 30) 4294967296) (Nat.shiftRight b 2)) c d

def roundC54 (a b c d e : Nat) : Nat × Nat × Nat × Nat × Nat :=
  roundC55 (Nat.mod (Nat.add (Nat.add (Nat.add (Nat.add (Nat.lor (Nat.mod (Nat.shiftLeft a 5) 4294967296) (Nat.shiftRight a 27)) (Nat.lor (Nat.lor (Nat.land b c) (Nat.land b d)) (Nat.land c d))) e) 2400959708) 1330597711) 4294967296) a (Nat.lor (Nat.mod (Nat.shiftLeft b 30) 4294967296) (Nat.shiftRight b 2)) c d

def roundC53 (a b c d e : Nat) : Nat × Nat × Nat × Nat × Nat :=
  roundC54 (Nat.mod (Nat.add (Nat.add (Nat.add (Nat.add (Nat.lor (Nat.mod (Nat.shiftLeft a 5) 4294967296) (Nat.shiftRight a 27)) (Nat.lor (Nat.lor (Nat.land b c) (Nat.land b d)) (Nat.land c d))) e) 2400959708) 3739147998) 4294967296) a (Nat.lor (Nat.mod (Nat.shiftLeft b 30) 4294967296) (Nat.shiftRight b 2)) c d

def roundC52 (a b c d e : Nat) : Nat × Nat × Nat × Nat × Nat :=
  roundC53 (Nat.mod (Nat.add (Nat.add (Nat.add (Nat.add (Nat.lor (Nat.mod (Nat.shiftLeft a 5) 4294967296) (Nat.shiftRight a 27)) (Nat.lor (Nat.lor (Nat.land b c) (Nat.land b d)) (Nat.land c d))) e) 2400959708) 3739147998) 4294967296) a (Nat.lor (Nat.mod (Nat.shiftLeft b 30) 4294967296) (Nat.shiftRight b 2)) c d

def roundC51 (a b c d e : Nat) : Nat × Nat × Nat × Nat × Nat :=
  roundC52 (Nat.mod (Nat.add (Nat.add (Nat.add (Nat.add (Nat.lor (Nat.mod (Nat.shiftLeft a 5) 4294967296) (Nat.shiftRight a 27)) (Nat.lor (Nat.lor (Nat.land b c) (Nat.land b d)) (Nat.land c d))) e) 2400959708) 1936946035) 4294967296) a (Nat.lor (Nat.mod (Nat.shiftLeft b 30) 4294967296) (Nat.shiftRight b 2)) c d

def roundC50 (a b c d e : Nat) : Nat × Nat × Nat × Nat × Nat :=
  roundC51 (Nat.mod (Nat.add (Nat.add (Nat.add (Nat.add (Nat.lor (Nat.mod (Nat.shiftLeft a 5) 4294967296) (Nat.shiftRight a 27)) (Nat.lor (Nat.lor (Nat.land b c) (Nat.land b d)) (Nat.land c d))) e) 2400959708) 1414812756) 4294967296) a (Nat.lor (Nat.mod (Nat.shiftLeft b 30) 4294967296) (Nat.shiftRight b 2)) c d

def roundC49 (a b c d e : Nat) : Nat × Nat × Nat × Nat × Nat :=
  roundC50 (Nat.mod (Nat.add (Nat.add (Nat.add (Nat.add (Nat.lor (Nat.mod (Nat.shiftLeft a 5) 4294967296) (Nat.shiftRight a 27)) (Nat.lor (Nat.lor (Nat.land b c) (Nat.land b d)) (Nat.land c d))) e) 2400959708) 3840206052) 4294967296) a (Nat.lor (Nat.mod (Nat.shiftLeft b 30) 4294967296) (Nat.shiftRight b 2)) c d

def roundC48 (a b c d e : Nat) : Nat × Nat × Nat × Nat × Nat :=
  roundC49 (Nat.mod (Nat.add (Nat.add (Nat.add (Nat.add (Nat.lor (Nat.mod (Nat.shiftLeft a 5) 4294967296) (Nat.shiftRight a 27)) (Nat.lor (Nat.lor (Nat.land b c) (Nat.land b d)) (Nat.land c d))) e) 2400959708) 4025479151) 4294967296) a (Nat.lor (Nat.mod (Nat.shiftLeft b 30) 4294967296) (Nat.shiftRight b 2)) c d

def roundC47 (a b c d e : Nat) : Nat × Nat × Nat × Nat × Nat :=
  roundC48 (Nat.mod (Nat.add (Nat.add (Nat.add (Nat.add (Nat.lor (Nat.mod (Nat.shiftLeft a 5) 4294967296) (Nat.shiftRight a 27)) (Nat.lor (Nat.lor (Nat.land b c) (Nat.land b d)) (Nat.land c d))) e) 2400959708) 84215045) 4294967296) a (Nat.lor (Nat.mod (Nat.shiftLeft b 30) 4294967296) (Nat.shiftRight b 2)) c d

def roundC46 (a b c d e : Nat) : Nat × Nat × Nat × Nat × Nat :=
  roundC47 (Nat.mod (Nat.add (Nat.add (Nat.add (Nat.add (Nat.lor (Nat.mod (Nat.shiftLeft a 5) 4294967296) (Nat.shiftRight a 27)) (Nat.lor (Nat.lor (Nat.land b c) (Nat.land b d)) (Nat.land c d))) e) 2400959708) 3200171710) 4294967296) a (Nat.lor (Nat.mod (Nat.shiftLeft b 30) 4294967296) (Nat.shiftRight b 2)) c d

def roundC45 (a b c d e : Nat) : Nat × Nat × Nat × Nat × Nat :=
  roundC46 (Nat.mod (Nat.add (Nat.add (Nat.add (Nat.add (Nat.lor (Nat.mod (Nat.shiftLeft a 5) 4294967296) (Nat.shiftRight a 27)) (Nat.lor (Nat.lor (Nat.land b c) (Nat.land b d)) (Nat.land c d))) e) 2400959708) 808464432) 4294967296) a (Nat.lor (Nat.mod (Nat.shiftLeft b 30) 4294967296) (Nat.shiftRight b 2)) c d

def roundC44 (a b c d e : Nat) : Nat × Nat × Nat × Nat × Nat :=
  roundC45 (Nat.mod (Nat.add (Nat.add (Nat.add (Nat.add (Nat.lor (Nat.mod (Nat.shiftLeft a 5) 4294967296) (Nat.shiftRight a 27)) (Nat.lor (Nat.lor (Nat.land b c) (Nat.land b d)) (Nat.land c d))) e) 2400959708) 808464432) 4294967296) a (Nat.lor (Nat.mod (Nat.shiftLeft b 30) 4294967296) (Nat.shiftRight b 2)) c d

def roundC43 (a b c d e : Nat) : Nat × Nat × Nat × Nat × Nat :=
  roundC44 (Nat.mod (Nat.add (Nat.add (Nat.add (Nat.add (Nat.lor (Nat.mod (Nat.shiftLeft a 5) 4294967296) (Nat.shiftRight a 27)) (Nat.lor (Nat.lor (Nat.land b c) (Nat.land b d)) (Nat.land c d))) e) 2400959708) 3250700737) 4294967296) a (Nat.lor (Nat.mod (Nat.shiftLeft b 30) 4294967296) (Nat.shiftRight b 2)) c d

def roundC42 (a b c d e : Nat) : Nat × Nat × Nat × Nat × Nat :=
  roundC43 (Nat.mod (Nat.add (Nat.add (Nat.add (Nat.add (Nat.lor (Nat.mod (Nat.shiftLeft a 5) 4294967296) (Nat.shiftRight a 27)) (Nat.lor (Nat.lor (Nat.land b c) (Nat.land b d)) (Nat.land c d))) e) 2400959708) 50529027) 4294967296) a (Nat.lor (Nat.mod (Nat.shiftLeft b 30) 4294967296) (Nat.shiftRight b 2)) c d

def roundC41 (a b c d e : Nat) : Nat × Nat × Nat × Nat × Nat :=
  roundC42 (Nat.mod (Nat.add (Nat.add (Nat.add (Nat.add (Nat.lor (Nat.mod (Nat.shiftLeft a 5) 4294967296) (Nat.shiftRight a 27)) (Nat.lor (Nat.lor (Nat.land b c) (Nat.land b d)) (Nat.land c d))) e) 2400959708) 2678038431) 4294967296) a (Nat.lor (Nat.mod (Nat.shiftLeft b 30) 4294967296) (Nat.shiftRight b 2)) c d

def roundC40 (a b c d e : Nat) : Nat × Nat × Nat × Nat × Nat :=
  roundC41 (Nat.mod (Nat.add (Nat.add (Nat.add (Nat.add (Nat.lor (Nat.mod (Nat.shiftLeft a 5) 4294967296) (Nat.shiftRight a 27)) (Nat.lor (Nat.lor (Nat.land b c) (Nat.land b d)) (Nat.land c d))) e) 2400959708) 2678038431) 4294967296) a (Nat.lor (Nat.mod (Nat.shiftLeft b 30) 4294967296) (Nat.shiftRight b 2)) c d

def roundC39 (a b c d e : Nat) : Nat × Nat × Nat × Nat × Nat :=
  roundC40 (Nat.mod (Nat.add (Nat.add (Nat.add (Nat.add (Nat.lor (Nat.mod (Nat.shiftLeft a 5) 4294967296) (Nat.shiftRight a 27)) (Nat.xor (Nat.xor b c) d)) e) 1859775393) 4126537205) 4294967296) a (Nat.lor (Nat.mod (Nat.shiftLeft b 30) 4294967296) (Nat.shiftRight b 2)) c d

def roundC38 (a b c d e : Nat) : Nat × Nat × Nat × Nat × Nat :=
  roundC39 (Nat.mod (Nat.add (Nat.add (Nat.add (Nat.add (Nat.lor (Nat.mod (Nat.shiftLeft a 5) 4294967296) (Nat.shiftRight a 27)) (Nat.xor (Nat.xor b c) d)) e) 1859775393) 4126537205) 4294967296) a (Nat.lor (Nat.mod (Nat.shiftLeft b 30) 4294967296) (Nat.shiftRight b 2)) c d

def roundC37 (a b c d e : Nat) : Nat × Nat × Nat × Nat × Nat :=
  roundC38 (Nat.mod (Nat.add (Nat.add (Nat.add (Nat.add (Nat.lor (Nat.mod (Nat.shiftLeft a 5) 4294967296) (Nat.shiftRight a 27)) (Nat.xor (Nat.xor b c) d)) e) 1859775393) 4278124286) 4294967296) a (Nat.lor (Nat.mod (Nat.shiftLeft b 30) 4294967296) (Nat.shiftRight b 2)) c d

def roundC36 (a b c d e : Nat) : Nat × Nat × Nat × Nat × Nat :=
  roundC37 (Nat.mod (Nat.add (Nat.add (Nat.add (Nat.add (Nat.lor (Nat.mod (Nat.shiftLeft a 5) 4294967296) (Nat.shiftRight a 27)) (Nat.xor (Nat.xor b c) d)) e) 1859775393) 1313754702) 4294967296) a (Nat.lor (Nat.mod (Nat.shiftLeft b 30) 4294967296) (Nat.shiftRight b 2)) c d

def roundC35 (a b c d e : Nat) : Nat × Nat × Nat × Nat × Nat :=
  roundC36 (Nat.mod (Nat.add (Nat.add (Nat.add (Nat.add (Nat.lor (Nat.mod (Nat.shiftLeft a 5) 4294967296) (Nat.shiftRight a 27)) (Nat.xor (Nat.xor b c) d)) e) 1859775393) 1768515945) 4294967296) a (Nat.lor (Nat.mod (Nat.shiftLeft b 30) 4294967296) (Nat.shiftRight b 2)) c d

def roundC34 (a b c d e : Nat) : Nat × Nat × Nat × Nat × Nat :=
  roundC35 (Nat.mod (Nat.add (Nat.add (Nat.add (Nat.add (Nat.lor (Nat.mod (Nat.shiftLeft a 5) 4294967296) (Nat.shiftRight a 27)) (Nat.xor (Nat.xor b c) d)) e) 1859775393) 1650614882) 4294967296) a (Nat.lor (Nat.mod (Nat.shiftLeft b 30) 4294967296) (Nat.shiftRight b 2)) c d

def roundC33 (a b c d e : Nat) : Nat × Nat × Nat × Nat × Nat :=
  roundC34 (Nat.mod (Nat.add (Nat.add (Nat.add (Nat.add (Nat.lor (Nat.mod (Nat.shiftLeft a 5) 4294967296) (Nat.shiftRight a 27)) (Nat.xor (Nat.xor b c) d)) e) 1859775393) 976894522) 4294967296) a (Nat.lor (Nat.mod (Nat.shiftLeft b 30) 4294967296) (Nat.shiftRight b 2)) c d

def roundC32 (a b c d e : Nat) : Nat × Nat × Nat × Nat × Nat :=
  roundC33 (Nat.mod (Nat.add (Nat.add (Nat.add (Nat.add (Nat.lor (Nat.mod (Nat.shiftLeft a 5) 4294967296) (Nat.shiftRight a 27)) (Nat.xor (Nat.xor b c) d)) e) 1859775393) 976894522) 4294967296) a (Nat.lor (Nat.mod (Nat.shiftLeft b 30) 4294967296) (Nat.shiftRight b 2)) c d

def roundC31 (a b c d e : Nat) : Nat × Nat × Nat × Nat × Nat :=
  roundC32 (Nat.mod (Nat.add (Nat.add (Nat.add (Nat.add (Nat.lor (Nat.mod (Nat.shiftLeft a 5) 4294967296) (Nat.shiftRight a 27)) (Nat.xor (Nat.xor b c) d)) e) 1859775393) 2105376125) 4294967296) a (Nat.lor (Nat.mod (Nat.shiftLeft b 30) 4294967296) (Nat.shiftRight b 2)) c d

def roundC30 (a b c d e : Nat) : Nat × Nat × Nat × Nat × Nat :=
  roundC31 (Nat.mod (Nat.add (Nat.add (Nat.add (Nat.add (Nat.lor (Nat.mod (Nat.shiftLeft a 5) 4294967296) (Nat.shiftRight a 27)) (Nat.xor (Nat.xor b c) d)) e) 1859775393) 1364283729) 4294967296) a (Nat.lor (Nat.mod (Nat.shiftLeft b 30) 4294967296) (Nat.shiftRight b 2)) c d

def roundC29 (a b c d e : Nat) : Nat × Nat × Nat × Nat × Nat :=
  roundC30 (Nat.mod (Nat.add (Nat.add (Nat.add (Nat.add (Nat.lor (Nat.mod (Nat.shiftLeft a 5) 4294967296) (Nat.shiftRight a 27)) (Nat.xor (Nat.xor b c) d)) e) 1859775393) 2560137368) 4294967296) a (Nat.lor (Nat.mod (Nat.shiftLeft b 30) 4294967296) (Nat.shiftRight b 2)) c d

def roundC28 (a b c d e : Nat) : Nat × Nat × Nat × Nat × Nat :=
  roundC29 (Nat.mod (Nat.add (Nat.add (Nat.add (Nat.add (Nat.lor (Nat.mod (Nat.shiftLeft a 5) 4294967296) (Nat.shiftRight a 27)) (Nat.xor (Nat.xor b c) d)) e) 1859775393) 2560137368) 4294967296) a (Nat.lor (Nat.mod (Nat.shiftLeft b 30) 4294967296) (Nat.shiftRight b 2)) c d

def roundC27 (a b c d e : Nat) : Nat × Nat × Nat × Nat × Nat :=
  roundC28 (Nat.mod (Nat.add (Nat.add (Nat.add (Nat.add (Nat.lor (Nat.mod (Nat.shiftLeft a 5) 4294967296) (Nat.shiftRight a 27)) (Nat.xor (Nat.xor b c) d)) e) 1859775393) 2391707278) 4294967296) a (Nat.lor (Nat.mod (Nat.shiftLeft b 30) 4294967296) (Nat.shiftRight b 2)) c d

def roundC26 (a b c d e : Nat) : Nat × Nat × Nat × Nat × Nat :=
  roundC27 (Nat.mod (Nat.add (Nat.add (Nat.add (Nat.add (Nat.lor (Nat.mod (Nat.shiftLeft a 5) 4294967296) (Nat.shiftRight a 27)) (Nat.xor (Nat.xor b c) d)) e) 1859775393) 2391707278) 4294967296) a (Nat.lor (Nat.mod (Nat.shiftLeft b 30) 4294967296) (Nat.shiftRight b 2)) c d

def roundC25 (a b c d e : Nat) : Nat × Nat × Nat × Nat × Nat :=
  roundC26 (Nat.mod (Nat.add (Nat.add (Nat.add (Nat.add (Nat.lor (Nat.mod (Nat.shiftLeft a 5) 4294967296) (Nat.shiftRight a 27)) (Nat.xor (Nat.xor b c) d)) e) 1859775393) 2391707278) 4294967296) a (Nat.lor (Nat.mod (Nat.shiftLeft b 30) 4294967296) (Nat.shiftRight b 2)) c d

def roundC24 (a b c d e : Nat) : Nat × Nat × Nat × Nat × Nat :=
  roundC25 (Nat.mod (Nat.add (Nat.add (Nat.add (Nat.add (Nat.lor (Nat.mod (Nat.shiftLeft a 5) 4294967296) (Nat.shiftRight a 27)) (Nat.xor (Nat.xor b c) d)) e) 1859775393) 2240120197) 4294967296) a (Nat.lor (Nat.mod (Nat.shiftLeft b 30) 4294967296) (Nat.shiftRight b 2)) c d

def roundC23 (a b c d e : Nat) : Nat × Nat × Nat × Nat × Nat :=
  roundC24 (Nat.mod (Nat.add (Nat.add (Nat.add (Nat.add (Nat.lor (Nat.mod (Nat.shiftLeft a 5) 4294967296) (Nat.shiftRight a 27)) (Nat.xor (Nat.xor b c) d)) e) 1859775393) 1195853639) 4294967296) a (Nat.lor (Nat.mod (Nat.shiftLeft b 30) 4294967296) (Nat.shiftRight b 2)) c d

def roundC22 (a b c d e : Nat) : Nat × Nat × Nat × Nat × Nat :=
  roundC23 (Nat.mod (Nat.add (Nat.add (Nat.add (Nat.add (Nat.lor (Nat.mod (Nat.shiftLeft a 5) 4294967296) (Nat.shiftRight a 27)) (Nat.xor (Nat.xor b c) d)) e) 1859775393) 1195853639) 4294967296) a (Nat.lor (Nat.mod (Nat.shiftLeft b 30) 4294967296) (Nat.shiftRight b 2)) c d

def roundC21 (a b c d e : Nat) : Nat × Nat × Nat × Nat × Nat :=
  roundC22 (Nat.mod (Nat.add (Nat.add (Nat.add (Nat.add (Nat.lor (Nat.mod (Nat.shiftLeft a 5) 4294967296) (Nat.shiftRight a 27)) (Nat.xor (Nat.xor b c) d)) e) 1859775393) 3267543746) 4294967296) a (Nat.lor (Nat.mod (Nat.shiftLeft b 30) 4294967296) (Nat.shiftRight b 2)) c d

def roundC20 (a b c d e : Nat) : Nat × Nat × Nat × Nat × Nat :=
  roundC21 (Nat.mod (Nat.add (Nat.add (Nat.add (Nat.add (Nat.lor (Nat.mod (Nat.shiftLeft a 5) 4294967296) (Nat.shiftRight a 27)) (Nat.xor (Nat.xor b c) d)) e) 1859775393) 3267543746) 4294967296) a (Nat.lor (Nat.mod (Nat.shiftLeft b 30) 4294967296) (Nat.shiftRight b 2)) c d

def roundC19 (a b c d e : Nat) : Nat × Nat × Nat × Nat × Nat :=
  roundC20 (Nat.mod (Nat.add (Nat.add (Nat.add (Nat.add (Nat.lor (Nat.mod (Nat.shiftLeft a 5) 4294967296) (Nat.shiftRight a 27)) (Nat.lor (Nat.land b c) (Nat.land (Nat.xor b 4294967295) d))) e) 1518500249) 3267543746) 4294967296) a (Nat.lor (Nat.mod (Nat.shiftLeft b 30) 4294967296) (Nat.shiftRight b 2)) c d

def roundC18 (a b c d e : Nat) : Nat × Nat × Nat × Nat × Nat :=
  roundC19 (Nat.mod (Nat.add (Nat.add (Nat.add (Nat.add (Nat.lor (Nat.mod (Nat.shiftLeft a 5) 4294967296) (Nat.shiftRight a 27)) (Nat.lor (Nat.land b c) (Nat.land (Nat.xor b 4294967295) d))) e) 1518500249) 0) 4294967296) a (Nat.lor (Nat.mod (Nat.shiftLeft b 30) 4294967296) (Nat.shiftRight b 2)) c d

def roundC17 (a b c d e : Nat) : Nat × Nat × Nat × Nat × Nat :=
  roundC18 (Nat.mod (Nat.add (Nat.add (Nat.add (Nat.add (Nat.lor (Nat.mod (Nat.shiftLeft a 5) 4294967296) (Nat.shiftRight a 27)) (Nat.lor (Nat.land b c) (Nat.land (Nat.xor b 4294967295) d))) e) 1518500249) 0) 4294967296) a (Nat.lor (Nat.mod (Nat.shiftLeft b 30) 4294967296) (Nat.shiftRight b 2)) c d

def roundC16 (a b c d e : Nat) : Nat × Nat × Nat × Nat × Nat :=
  roundC17 (Nat.mod (Nat.add (Nat.add (Nat.add (Nat.add (Nat.lor (Nat.mod (Nat.shiftLeft a 5) 4294967296) (Nat.shiftRight a 27)) (Nat.lor (Nat.land b c) (Nat.land (Nat.xor b 4294967295) d))) e) 1518500249) 0) 4294967296) a (Nat.lor (Nat.mod (Nat.shiftLeft b 30) 4294967296) (Nat.shiftRight b 2)) c d

def roundC15 (a b c d e : Nat) : Nat × Nat × Nat × Nat × Nat :=
  roundC16 (Nat.mod (Nat.add (Nat.add (Nat.add (Nat.add (Nat.lor (Nat.mod (Nat.shiftLeft a 5) 4294967296) (Nat.shiftRight a 27)) (Nat.lor (Nat.land b c) (Nat.land (Nat.xor b 4294967295) d))) e) 1518500249) 1633771873) 4294967296) a (Nat.lor (Nat.mod (Nat.shiftLeft b 30) 4294967296) (Nat.shiftRight b 2)) c d

def roundC14 (a b c d e : Nat) : Nat × Nat × Nat × Nat × Nat :=
  roundC15 (Nat.mod (Nat.add (Nat.add (Nat.add (Nat.add (Nat.lor (Nat.mod (Nat.shiftLeft a 5) 4294967296) (Nat.shiftRight a 27)) (Nat.lor (Nat.land b c) (Nat.land (Nat.xor b 4294967295) d))) e) 1518500249) 1633771873) 4294967296) a (Nat.lor (Nat.mod (Nat.shiftLeft b 30) 4294967296) (Nat.shiftRight b 2)) c d

def roundC13 (a b c d e : Nat) : Nat × Nat × Nat × Nat × Nat :=
  roundC14 (Nat.mod (Nat.add (Nat.add (Nat.add (Nat.add (Nat.lor (Nat.mod (Nat.shiftLeft a 5) 4294967296) (Nat.shiftRight a 27)) (Nat.lor (Nat.land b c) (Nat.land (Nat.xor b 4294967295) d))) e) 1518500249) 1633771873) 4294967296) a (Nat.lor (Nat.mod (Nat.shiftLeft b 30) 4294967296) (Nat.shiftRight b 2)) c d

def roundC12 (a b c d e : Nat) : Nat × Nat × Nat × Nat × Nat :=
  roundC13 (Nat.mod (Nat.add (Nat.add (Nat.add (Nat.add (Nat.lor (Nat.mod (Nat.shiftLeft a 5) 4294967296) (Nat.shiftRight a 27)) (Nat.lor (Nat.land b c) (Nat.land (Nat.xor b 4294967295) d))) e) 1518500249) 1633771873) 4294967296) a (Nat.lor (Nat.mod (Nat.shiftLeft b 30) 4294967296) (Nat.shiftRight b 2)) c d

def roundC11 (a b c d e : Nat) : Nat × Nat × Nat × Nat × Nat :=
  roundC12 (Nat.mod (Nat.add (Nat.add (Nat.add (Nat.add (Nat.lor (Nat.mod (Nat.shiftLeft a 5) 4294967296) (Nat.shiftRight a 27)) (Nat.lor (Nat.land b c) (Nat.land (Nat.xor b 4294967295) d))) e) 1518500249) 1633771873) 4294967296) a (Nat.lor (Nat.mod (Nat.shiftLeft b 30) 4294967296) (Nat.shiftRight b 2)) c d

def roundC10 (a b c d e : Nat) : Nat × Nat × Nat × Nat × Nat :=
  roundC11 (Nat.mod (Nat.add (Nat.add (Nat.add (Nat.add (Nat.lor (Nat.mod (Nat.shiftLeft a 5) 4294967296) (Nat.shiftRight a 27)) (Nat.lor (Nat.land b c) (Nat.land (Nat.xor b 4294967295) d))) e) 1518500249) 1633771873) 4294967296) a (Nat.lor (Nat.mod (Nat.shiftLeft b 30) 4294967296) (Nat.shiftRight b 2)) c d

def roundC9 (a b c d e : Nat) : Nat × Nat × Nat × Nat × Nat :=
  roundC10 (Nat.mod (Nat.add (Nat.add (Nat.add (Nat.add (Nat.lor (Nat.mod (Nat.shiftLeft a 5) 4294967296) (Nat.shiftRight a 27)) (Nat.lor (Nat.land b c) (Nat.land (Nat.xor b 4294967295) d))) e) 1518500249) 1633771873) 4294967296) a (Nat.lor (Nat.mod (Nat.shiftLeft b 30) 4294967296) (Nat.shiftRight b 2)) c d

def roundC8 (a b c d e : Nat) : Nat × Nat × Nat × Nat × Nat :=
  roundC9 (Nat.mod (Nat.add (Nat.add (Nat.add (Nat.add (Nat.lor (Nat.mod (Nat.shiftLeft a 5) 4294967296) (Nat.shiftRight a 27)) (Nat.lor (Nat.land b c) (Nat.land (Nat.xor b 4294967295) d))) e) 1518500249) 1633771873) 4294967296) a (Nat.lor (Nat.mod (Nat.shiftLeft b 30) 4294967296) (Nat.shiftRight b 2)) c d

def roundC7 (a b c d e : Nat) : Nat × Nat × Nat × Nat × Nat :=
  roundC8 (Nat.mod (Nat.add (Nat.add (Nat.add (Nat.add (Nat.lor (Nat.mod (Nat.shiftLeft a 5) 4294967296) (Nat.shiftRight a 27)) (Nat.lor (Nat.land b c) (Nat.land (Nat.xor b 4294967295) d))) e) 1518500249) 1633771873) 4294967296) a (Nat.lor (Nat.mod (Nat.shiftLeft b 30) 4294967296) (Nat.shiftRight b 2)) c d

def roundC6 (a b c d e : Nat) : Nat × Nat × Nat × Nat × Nat :=
  roundC7 (Nat.mod (Nat.add (Nat.add (Nat.add (Nat.add (Nat.lor (Nat.mod (Nat.shiftLeft a 5) 4294967296) (Nat.shiftRight a 27)) (Nat.lor (Nat.land b c) (Nat.land (Nat.xor b 4294967295) d))) e) 1518500249) 1633771873) 4294967296) a (Nat.lor (Nat.mod (Nat.shiftLeft b 30) 4294967296) (Nat.shiftRight b 2)) c d

def roundC5 (a b c d e : Nat) : Nat × Nat × Nat × Nat × Nat :=
  roundC6 (Nat.mod (Nat.add (Nat.add (Nat.add (Nat.add (Nat.lor (Nat.mod (Nat.shiftLeft a 5) 4294967296) (Nat.shiftRight a 27)) (Nat.lor (Nat.land b c) (Nat.land (Nat.xor b 4294967295) d))) e) 1518500249) 1633771873) 4294967296) a (Nat.lor (Nat.mod (Nat.shiftLeft b 30) 4294967296) (Nat.shiftRight b 2)) c d

def roundC4 (a b c d e : Nat) : Nat × Nat × Nat × Nat × Nat :=
  roundC5 (Nat.mod (Nat.add (Nat.add (Nat.add (Nat.add (Nat.lor (Nat.mod (Nat.shiftLeft a 5) 4294967296) (Nat.shiftRight a 27)) (Nat.lor (Nat.land b c) (Nat.land (Nat.xor b 4294967295) d))) e) 1518500249) 1633771873) 4294967296) a (Nat.lor (Nat.mod (Nat.shiftLeft b 30) 4294967296) (Nat.shiftRight b 2)) c d

def roundC3 (a b c d e : Nat) : Nat × Nat × Nat × Nat × Nat :=
  roundC4 (Nat.mod (Nat.add (Nat.add (Nat.add (Nat.add (Nat.lor (Nat.mod (Nat.shiftLeft a 5) 4294967296) (Nat.shiftRight a 27)) (Nat.lor (Nat.land b c) (Nat.land (Nat.xor b 4294967295) d))) e) 1518500249) 1633771873) 4294967296) a (Nat.lor (Nat.mod (Nat.shiftLeft b 30) 4294967296) (Nat.shiftRight b 2)) c d

def roundC2 (a b c d e : Nat) : Nat × Nat × Nat × Nat × Nat :=
  roundC3 (Nat.mod (Nat.add (Nat.add (Nat.add (Nat.add (Nat.lor (Nat.mod (Nat.shiftLeft a 5) 4294967296) (Nat.shiftRight a 27)) (Nat.lor (Nat.land b c) (Nat.land (Nat.xor b 4294967295) d))) e) 1518500249) 1633771873) 4294967296) a (Nat.lor (Nat.mod (Nat.shiftLeft b 30) 4294967296) (Nat.shiftRight b 2)) c d

def roundC1 (a b c d e : Nat) : Nat × Nat × Nat × Nat × Nat :=
  roundC2 (Nat.mod (Nat.add (Nat.add (Nat.add (Nat.add (Nat.lor (Nat.mod (Nat.shiftLeft a 5) 4294967296) (Nat.shiftRight a 27)) (Nat.lor (Nat.land b c) (Nat.land (Nat.xor b 4294967295) d))) e) 1518500249) 1633771873) 4294967296) a (Nat.lor (Nat.mod (Nat.shiftLeft b 30) 4294967296) (Nat.shiftRight b 2)) c d

def roundC0 (a b c d e : Nat) : Nat × Nat × Nat × Nat × Nat :=
  roundC1 (Nat.mod (Nat.add (Nat.add (Nat.add (Nat.add (Nat.lor (Nat.mod (Nat.shiftLeft a 5) 4294967296) (Nat.shiftRight a 27)) (Nat.lor (Nat.land b c) (Nat.land (Nat.xor b 4294967295) d))) e) 1518500249) 1633771873) 4294967296) a (Nat.lor (Nat.mod (Nat.shiftLeft b 30) 4294967296) (Nat.shiftRight b 2)) c d

def stepC (a0 b0 c0 d0 e0 : Nat) : Nat × Nat × Nat × Nat × Nat :=
  match roundC0 a0 b0 c0 d0 e0 with
  | (a, b, c, d, e) =>
    (Nat.mod (Nat.add a0 a) 4294967296, Nat.mod (Nat.add b0 b) 4294967296,
     Nat.mod (Nat.add c0 c) 4294967296, Nat.mod (Nat.add d0 d) 4294967296,
     Nat.mod (Nat.add e0 e) 4294967296)

def stepCt (hv : Nat × Nat × Nat × Nat × Nat) : Nat × Nat × Nat × Nat × Nat :=
  stepC hv.1 hv.2.1 hv.2.2.1 hv.2.2.2.1 hv.2.2.2.2

def loopI : Nat → Nat × Nat × Nat × Nat × Nat → Nat × Nat × Nat × Nat × Nat := fun k =>
  Nat.rec (motive := fun _ => Nat × Nat × Nat × Nat × Nat → Nat × Nat × Nat × Nat × Nat)
    (fun hv => hv)
    (fun _ ih hv =>
      let hw := stepCt hv
      if hw.1 + hw.2.1 + hw.2.2.1 + hw.2.2.2.1 + hw.2.2.2.2 < 21474836480 then ih hw
      else ih hw)
    k

def loopO : Nat → Nat × Nat × Nat × Nat × Nat → Nat × Nat × Nat × Nat × Nat := fun k =>
  Nat.rec (motive := fun _ => Nat × Nat × Nat × Nat × Nat → Nat × Nat × Nat × Nat × Nat)
    (fun hv => hv)
    (fun _ ih hv =>
      let hw := loopI 125 hv
      if hw.1 + hw.2.1 + hw.2.2.1 + hw.2.2.2.1 + hw.2.2.2.2 < 21474836480 then ih hw
      else ih hw)
    k

/-- One compression round on the all-`'a'` block. -/
def stepD (hv : Nat × Nat × Nat × Nat × Nat) : Nat × Nat × Nat × Nat × Nat :=
  sha1_hash_block hv blockC

/-- Iteration of a state transformer, as a raw recursor so unfolding one
step is a cheap definitional equality. -/
def iterT (f : Nat × Nat × Nat × Nat × Nat → Nat × Nat × Nat × Nat × Nat) :
    Nat → Nat × Nat × Nat × Nat × Nat → Nat × Nat × Nat × Nat × Nat := fun n =>
  Nat.rec (motive := fun _ => Nat × Nat × Nat × Nat × Nat → Nat × Nat × Nat × Nat × Nat)
    (fun hv => hv)
    (fun _ ih hv => ih (f hv))
    n

/-- `n` applications of the compression round to the all-`'a'` block. -/
def hashBlocksC : Nat → Nat × Nat × Nat × Nat × Nat → Nat × Nat × Nat × Nat × Nat :=
  iterT stepD

end Sha1

namespace FindPwned

/-- `struct pwned_info_s` from src/find-pwned.c: 20 hash bytes and a 32-bit
occurrence count (24 packed bytes on disk). -/
structure pwned_info where
  hash : List Nat
  count : Nat
deriving DecidableEq

/-- `kPwnedInfoSize = sizeof(pwned_info_t) = 24`. -/
def kPwnedInfoSize : Nat := 24

/-- The record a read past the end of the mapped file would see; the claims
only exercise in-bounds indices. -/
def default_info : pwned_info :=
  ⟨List.replicate 20 0, 0⟩

/-- `memcmp(a, b, n)` over byte buffers, by sign: the sign of the first
differing byte pair (unsigned comparison), 0 when the first `n` bytes agree. -/
def memcmp_bytes : List Nat → List Nat → Nat → Int
  | _, _, 0 => 0
  | a :: as, b :: bs, n + 1 =>
    if a < b then -1 else if b < a then 1 else memcmp_bytes as bs n
  | _, _, _ => 0

/-- The `while (1)` loop of `find_hash` in src/find-pwned.c, with an explicit
fuel bound (`none` = the fuel ran out before the loop exited; the C loop has
no such bound, and `find_loop_total` shows fuel `hi - lo + 1` always
suffices).  `lo`, `hi`, `mid` are record indices. -/
def find_loop (data : List pwned_info) (hash : List Nat) :
    Nat → Nat → Nat → Option (Bool × Nat)
  | 0, _, _ => none
  | fuel + 1, lo, hi =>
    let mid := (lo + hi) / 2
    let pwned := data.getD mid default_info
    let cmp := memcmp_bytes hash pwned.hash 20
    if cmp = 0 then some (true, pwned.count)
    else if lo = mid then some (false, 0)
    else if cmp < 0 then find_loop data hash fuel lo mid
    else find_loop data hash fuel mid hi

/-- `find_hash(data, file_size, hash, count)` from src/find-pwned.c:
binary search from `lo = 0`, `hi = file_size / 24 - 1`.  The found flag and
the stored count are returned as a pair. -/
def find_hash (data : List pwned_info) (file_size : Nat) (hash : List Nat) :
    Option (Bool × Nat) :=
  let n := file_size / kPwnedInfoSize
  find_loop data hash n 0 (n - 1)

/-- `hexval(c)` from src/find-pwned.c: value of a hex digit, `-1` otherwise. -/
def hexval (c : Nat) : Int :=
  if 48 ≤ c ∧ c ≤ 57 then (c : Int) - 48
  else if 65 ≤ c ∧ c ≤ 70 then 10 + (c : Int) - 65
  else if 97 ≤ c ∧ c ≤ 102 then 10 + (c : Int) - 97
  else -1

/-- `hex2byte(h, byte)` from src/find-pwned.c: decode two hex characters,
`none` when either is invalid. -/
def hex2byte (c1 c2 : Nat) : Option Nat :=
  let hi := hexval c1
  let lo := hexval c2
  if hi < 0 ∨ lo < 0 then none
  else some (hi * 16 + lo).toNat

/-- The hex-decoding `for` loop of `handle_input`: decode consecutive pairs,
failing on the first invalid pair. -/
def decode_hex_hash : List Nat → Option (List Nat)
  | [] => some []
  | c1 :: c2 :: rest =>
    match hex2byte c1 c2 with
    | none => none
    | some b => (decode_hex_hash rest).map (b :: ·)
  | _ => none

/-- `handle_input(input, file_data, file_size)` from src/find-pwned.c with
the global `g_password` made a parameter; the printing is side effect only.
Returns the `found` result (`some false` on a per-query input error, which
the C code reports with `PrintUsageError(0, ...)` — exit code 0, so it does
not terminate the program — before `return 0`). -/
def handle_input (g_password : Bool) (input : List Nat) (data : List pwned_info)
    (file_size : Nat) : Option Bool :=
  if g_password then
    (find_hash data file_size (Sha1.sha1_buffer_bin input)).map Prod.fst
  else if input.length ≠ 40 then some false
  else
    match decode_hex_hash input with
    | none => some false
    | some hash => (find_hash data file_size hash).map Prod.fst

/-- The corpus-size validation and the query loop of `main()` in
src/find-pwned.c: a file size that is zero or not a multiple of 24 is
rejected with `PrintUsageError(3, ...)` (exit code 3) before any lookup;
otherwise every input is handed to `handle_input`. -/
def main_run (g_password : Bool) (file_size : Nat) (data : List pwned_info)
    (inputs : List (List Nat)) : Except Nat (List (Option Bool)) :=
  if file_size = 0 ∨ file_size % kPwnedInfoSize ≠ 0 then Except.error 3
  else Except.ok (inputs.map fun input => handle_input g_password input data file_size)

/-- The two-record sorted corpus on which the search misses the second
record: hashes `00…00` (count 1) and `01 00…00` (count 5). -/
def c1_corpus : List pwned_info :=
  [⟨List.replicate 20 0, 1⟩, ⟨1 :: List.replicate 19 0, 5⟩]

end FindPwned

namespace FindPwnedText

/-- `kTextHashLineBytes = 63` from src/find-pwned-password-hash.c. -/
def kTextHashLineBytes : Nat := 63

/-- ASCII `tolower`. -/
def c_tolower (c : Nat) : Nat :=
  if 65 ≤ c ∧ c ≤ 90 then c + 32 else c

/-- ASCII `toupper`. -/
def c_toupper (c : Nat) : Nat :=
  if 97 ≤ c ∧ c ≤ 122 then c - 32 else c

/-- `strncasecmp(a, b, n)` by sign: case-insensitive byte comparison over at
most `n` characters, stopping at a NUL once both strings agree there. -/
def strncasecmp : List Nat → List Nat → Nat → Int
  | _, _, 0 => 0
  | a :: as, b :: bs, n + 1 =>
    let ca := c_tolower a
    let cb := c_tolower b
    if ca < cb then -1
    else if cb < ca then 1
    else if ca = 0 then 0
    else strncasecmp as bs n
  | _, _, _ => 0

/-- `isspace` over ASCII. -/
def c_isspace (c : Nat) : Bool :=
  c = 32 ∨ (9 ≤ c ∧ c ≤ 13)

/-- The digit-accumulation loop of `atoi`. -/
def atoi_digits : List Nat → Nat → Nat
  | c :: rest, acc =>
    if 48 ≤ c ∧ c ≤ 57 then atoi_digits rest (acc * 10 + (c - 48)) else acc
  | [], acc => acc

/-- Leading-whitespace skip of `atoi`. -/
def atoi_skip : List Nat → List Nat
  | c :: rest => if c_isspace c then atoi_skip rest else c :: rest
  | [] => []

/-- `atoi(s)`: skip whitespace, optional sign, accumulate decimal digits. -/
def atoi (s : List Nat) : Int :=
  match atoi_skip s with
  | 43 :: rest => (atoi_digits rest 0 : Int)
  | 45 :: rest => -(atoi_digits rest 0 : Int)
  | rest => (atoi_digits rest 0 : Int)

/-- The `while (1)` loop of `find_hash` in src/find-pwned-password-hash.c
over 63-byte text records, with explicit fuel like `FindPwned.find_loop`.
On a match the count is `atoi` of the text after the 40 hash characters and
the colon, converted to the `uint64_t` output parameter. -/
def find_loop (data : List Nat) (hash : List Nat) :
    Nat → Nat → Nat → Option (Bool × Nat)
  | 0, _, _ => none
  | fuel + 1, lo, hi =>
    let mid := (lo + hi) / 2
    let file_hash := data.drop (mid * kTextHashLineBytes)
    let cmp := strncasecmp hash file_hash 40
    if cmp = 0 then
      some (true, ((atoi (file_hash.drop 41)).emod 18446744073709551616).toNat)
    else if lo = mid then some (false, 0)
    else if cmp < 0 then find_loop data hash fuel lo mid
    else find_loop data hash fuel mid hi

/-- `find_hash(data, file_size, hash, count)` from
src/find-pwned-password-hash.c: rejects a hash whose `strlen` is not 40
(returning 0 with the caller's count still 0), then binary-searches from
`lo = 0`, `hi = file_size / 63 - 1`. -/
def find_hash (data : List Nat) (file_size : Nat) (hash : List Nat) :
    Option (Bool × Nat) :=
  if hash.length ≠ 40 then some (false, 0)
  else find_loop data hash (file_size / kTextHashLineBytes) 0
    (file_size / kTextHashLineBytes - 1)

/-- `handle_input(input, file_data, file_size)` from
src/find-pwned-password-hash.c with the global `g_password` a parameter.
In password mode the hash text is the upper-case rendering of the SHA-1
digest of the input.  (The C function reaches its closing brace without a
`return` on the search path; the model returns the `found` value the
function computes.) -/
def handle_input (g_password : Bool) (input : List Nat) (file_data : List Nat)
    (file_size : Nat) : Option Bool :=
  if g_password then
    (find_hash file_data file_size
      ((Sha1.sha1_buffer_flags input 1).toList.map Char.toNat)).map Prod.fst
  else if input.length ≠ 40 then some false
  else (find_hash file_data file_size input).map Prod.fst

/-- The corpus-size validation and query loop of `main()` in
src/find-pwned-password-hash.c: a file size that is zero or not a multiple
of 63 is rejected with exit code 4 before any lookup. -/
def main_run (g_password : Bool) (file_size : Nat) (file_data : List Nat)
    (inputs : List (List Nat)) : Except Nat (List (Option Bool)) :=
  if file_size = 0 ∨ file_size % kTextHashLineBytes ≠ 0 then Except.error 4
  else Except.ok (inputs.map fun input => handle_input g_password input file_data file_size)

/-- The same two-record corpus in the 63-byte text format:
`"00…00:1<spaces>\n"` then `"100…00:5<spaces>\n"`. -/
def c1_corpus : List Nat :=
  (List.replicate 40 48 ++ [58, 49] ++ List.replicate 20 32 ++ [10]) ++
  (49 :: List.replicate 39 48 ++ [58, 53] ++ List.replicate 20 32 ++ [10])

end FindPwnedText

namespace Sha1

/-- 64 divides the 64-bit modulus. -/
theorem dvd_word_mod : (64 : Nat) ∣ 18446744073709551616 := by norm_num

/-- `take (i+1)` of `set i` appends the written byte to `take i`. -/
theorem take_set_succ {l : List Nat} {i : Nat} (b : Nat) (h : i < l.length) :
    (l.set i b).take (i + 1) = l.take i ++ [b] := by
  rw [List.set_eq_take_cons_drop b h]
  have hlen : (l.take i).length = i := by
    rw [List.length_take]; omega
  calc (l.take i ++ b :: l.drop (i + 1)).take (i + 1)
      = (l.take i ++ b :: l.drop (i + 1)).take ((l.take i).length + 1) := by rw [hlen]
    _ = l.take i ++ (b :: l.drop (i + 1)).take 1 := List.take_append 1
    _ = l.take i ++ [b] := rfl

/-- `memcpy_into` as take/append/drop surgery on the target buffer. -/
theorem memcpy_into_eq : ∀ (src l : List Nat) (pos : Nat),
    pos + src.length ≤ l.length →
    memcpy_into l pos src = l.take pos ++ src ++ l.drop (pos + src.length)
  | [], l, pos => by
    intro h
    show l = _
    simp [List.take_append_drop]
  | b :: rest, l, pos => by
    intro h
    have hpos : pos < l.length := by
      simp only [List.length_cons] at h; omega
    show memcpy_into (l.set pos b) (pos + 1) rest = _
    rw [memcpy_into_eq rest (l.set pos b) (pos + 1)
      (by simp only [List.length_set, List.length_cons] at h ⊢; omega)]
    rw [take_set_succ b hpos, List.drop_set]
    rw [if_pos (by omega : pos < pos + 1 + rest.length)]
    have harith : pos + 1 + rest.length = pos + (b :: rest).length := by
      simp only [List.length_cons]; omega
    rw [harith]
    simp [List.append_assoc]

/-- The no-compression case of `sha1_update_byte`. -/
theorem sha1_update_byte_nohash (s : sha1_t) (b : Nat) (h : (s.bytes + 1) % 64 ≠ 0) :
    sha1_update_byte s b =
      { s with block := s.block.set (s.bytes % 64) b,
               bytes := (s.bytes + 1) % 18446744073709551616 } := by
  unfold sha1_update_byte
  rw [Nat.mod_mod_of_dvd _ dvd_word_mod, if_neg h]

/-- The block-completing case of `sha1_update_byte`. -/
theorem sha1_update_byte_hash (s : sha1_t) (b : Nat) (h : (s.bytes + 1) % 64 = 0) :
    sha1_update_byte s b =
      { s with block := s.block.set (s.bytes % 64) b,
               bytes := (s.bytes + 1) % 18446744073709551616,
               h := sha1_hash_block s.h (s.block.set (s.bytes % 64) b),
               blocks := (s.blocks + 1) % 4294967296 } := by
  unfold sha1_update_byte
  rw [Nat.mod_mod_of_dvd _ dvd_word_mod, if_pos h]

theorem sha1_absorb_nil (s : sha1_t) : sha1_absorb s [] = s := rfl

theorem sha1_absorb_cons (s : sha1_t) (b : Nat) (data : List Nat) :
    sha1_absorb s (b :: data) = sha1_absorb (sha1_update_byte s b) data := rfl

theorem sha1_absorb_append (s : sha1_t) (l1 l2 : List Nat) :
    sha1_absorb s (l1 ++ l2) = sha1_absorb (sha1_absorb s l1) l2 :=
  List.foldl_append _ _ _ _

/-- Data too small to fill the block: every byte is staged, no compression
round runs. -/
theorem sha1_absorb_small : ∀ (data : List Nat) (s : sha1_t),
    s.bytes < 18446744073709551616 →
    data.length < 64 - s.bytes % 64 →
    sha1_absorb s data =
      { s with block := memcpy_into s.block (s.bytes % 64) data,
               bytes := (s.bytes + data.length) % 18446744073709551616 }
  | [], s => by
    intro hb hlen
    rw [sha1_absorb_nil]
    show s = _
    rw [show memcpy_into s.block (s.bytes % 64) [] = s.block from rfl]
    rw [show (s.bytes + ([] : List Nat).length) % 18446744073709551616 = s.bytes from by
      simp only [List.length_nil, Nat.add_zero]; omega]
  | b :: rest, s => by
    intro hb hlen
    have hused : s.bytes % 64 < 63 := by
      simp only [List.length_cons] at hlen; omega
    rw [sha1_absorb_cons, sha1_update_byte_nohash s b (by omega)]
    rw [sha1_absorb_small rest _
      (by show (s.bytes + 1) % 18446744073709551616 < 18446744073709551616; omega)
      (by show rest.length < 64 - (s.bytes + 1) % 18446744073709551616 % 64
          simp only [List.length_cons] at hlen; omega)]
    show ({ s with
        block := memcpy_into (s.block.set (s.bytes % 64) b)
          ((s.bytes + 1) % 18446744073709551616 % 64) rest,
        bytes := ((s.bytes + 1) % 18446744073709551616 + rest.length) %
          18446744073709551616 } : sha1_t) =
      { s with block := memcpy_into s.block (s.bytes % 64) (b :: rest),
               bytes := (s.bytes + (b :: rest).length) % 18446744073709551616 }
    rw [show (s.bytes + 1) % 18446744073709551616 % 64 = s.bytes % 64 + 1 from by omega,
      show ((s.bytes + 1) % 18446744073709551616 + rest.length) % 18446744073709551616 =
        (s.bytes + (b :: rest).length) % 18446744073709551616 from by
          simp only [List.length_cons]; omega]
    rfl

/-- Data that exactly fills the block: all bytes are staged and one
compression round runs. -/
theorem sha1_absorb_fill : ∀ (data : List Nat) (s : sha1_t),
    s.bytes < 18446744073709551616 →
    data.length = 64 - s.bytes % 64 →
    sha1_absorb s data =
      { s with h := sha1_hash_block s.h (memcpy_into s.block (s.bytes % 64) data),
               block := memcpy_into s.block (s.bytes % 64) data,
               bytes := (s.bytes + data.length) % 18446744073709551616,
               blocks := (s.blocks + 1) % 4294967296 }
  | [], s => by
    intro hb hlen
    exfalso
    simp only [List.length_nil] at hlen
    omega
  | b :: rest, s => by
    intro hb hlen
    by_cases hrest : rest = []
    · subst hrest
      have hused : s.bytes % 64 = 63 := by
        simp only [List.length_cons, List.length_nil] at hlen; omega
      rw [sha1_absorb_cons, sha1_absorb_nil, sha1_update_byte_hash s b (by omega)]
      rfl
    · have hused : s.bytes % 64 < 63 := by
        have hr : 0 < rest.length := List.length_pos.mpr hrest
        simp only [List.length_cons] at hlen; omega
      rw [sha1_absorb_cons, sha1_update_byte_nohash s b (by omega)]
      rw [sha1_absorb_fill rest _
        (by show (s.bytes + 1) % 18446744073709551616 < 18446744073709551616; omega)
        (by show rest.length = 64 - (s.bytes + 1) % 18446744073709551616 % 64
            simp only [List.length_cons] at hlen; omega)]
      show ({ s with
          h := sha1_hash_block s.h (memcpy_into (s.block.set (s.bytes % 64) b)
            ((s.bytes + 1) % 18446744073709551616 % 64) rest),
          block := memcpy_into (s.block.set (s.bytes % 64) b)
            ((s.bytes + 1) % 18446744073709551616 % 64) rest,
          bytes := ((s.bytes + 1) % 18446744073709551616 + rest.length) %
            18446744073709551616,
          blocks := (s.blocks + 1) % 4294967296 } : sha1_t) =
        { s with h := sha1_hash_block s.h (memcpy_into s.block (s.bytes % 64) (b :: rest)),
                 block := memcpy_into s.block (s.bytes % 64) (b :: rest),
                 bytes := (s.bytes + (b :: rest).length) % 18446744073709551616,
                 blocks := (s.blocks + 1) % 4294967296 }
      rw [show (s.bytes + 1) % 18446744073709551616 % 64 = s.bytes % 64 + 1 from by omega,
        show ((s.bytes + 1) % 18446744073709551616 + rest.length) % 18446744073709551616 =
          (s.bytes + (b :: rest).length) % 18446744073709551616 from by
            simp only [List.length_cons]; omega]
      rfl

/-- The while-loop of `sha1_update` agrees with the byte absorber when the
staging buffer starts empty. -/
theorem sha1_update_loop_eq_absorb : ∀ (n : Nat) (data : List Nat), data.length ≤ n →
    ∀ s : sha1_t, s.bytes < 18446744073709551616 → s.bytes % 64 = 0 →
    sha1_update_loop s data = sha1_absorb s data := by
  intro n
  induction n with
  | zero =>
    intro data hn s hb hz
    have hnil : data = [] := List.eq_nil_of_length_eq_zero (by omega)
    subst hnil
    rw [sha1_absorb_nil, sha1_update_loop.eq_def]
    norm_num
  | succ n ih =>
    intro data hn s hb hz
    by_cases h64 : 64 ≤ data.length
    · rw [sha1_update_loop.eq_def, dif_pos h64]
      have htake : (data.take 64).length = 64 := by
        simp only [List.length_take]; omega
      have hfill := sha1_absorb_fill (data.take 64) s hb (by rw [htake, hz])
      rw [htake, hz] at hfill
      conv_rhs => rw [← List.take_append_drop 64 data, sha1_absorb_append, hfill]
      show sha1_update_loop
          { s with block := memcpy_into s.block 0 (data.take 64),
                   bytes := (s.bytes + 64) % 18446744073709551616,
                   h := sha1_hash_block s.h (memcpy_into s.block 0 (data.take 64)),
                   blocks := (s.blocks + 1) % 4294967296 }
          (data.drop 64) = _
      exact ih (data.drop 64) (by simp only [List.length_drop]; omega) _
        (by show (s.bytes + 64) % 18446744073709551616 < 18446744073709551616; omega)
        (by show (s.bytes + 64) % 18446744073709551616 % 64 = 0; omega)
    · rw [sha1_update_loop.eq_def, dif_neg h64]
      by_cases h0 : data.length ≠ 0
      · rw [if_pos h0, sha1_absorb_small data s hb (by omega), hz]
      · rw [if_neg h0]
        push_neg at h0
        have hnil : data = [] := List.eq_nil_of_length_eq_zero h0
        subst hnil
        rw [sha1_absorb_nil]

/-- `sha1_update` written out with its lets substituted. -/
theorem sha1_update_unfold (s : sha1_t) (data : List Nat) :
    sha1_update s data =
      (if data.length = 0 then s
       else if data.length < 64 - s.bytes % 64 then
        { s with block := memcpy_into s.block (s.bytes % 64) data,
                 bytes := (s.bytes + data.length) % 18446744073709551616 }
       else
        sha1_update_loop
          { s with
              block := memcpy_into s.block (s.bytes % 64) (data.take (64 - s.bytes % 64)),
              bytes := (s.bytes + (64 - s.bytes % 64)) % 18446744073709551616,
              h := sha1_hash_block s.h
                (memcpy_into s.block (s.bytes % 64) (data.take (64 - s.bytes % 64))),
              blocks := (s.blocks + 1) % 4294967296 }
          (data.drop (64 - s.bytes % 64))) := rfl

/-- `sha1_update` is the byte absorber: the block-at-a-time buffering of
the C code is equivalent to absorbing one byte at a time. -/
theorem sha1_update_eq_absorb (s : sha1_t) (data : List Nat)
    (hb : s.bytes < 18446744073709551616) :
    sha1_update s data = sha1_absorb s data := by
  rw [sha1_update_unfold]
  by_cases h0 : data.length = 0
  · rw [if_pos h0]
    have hnil : data = [] := List.eq_nil_of_length_eq_zero h0
    subst hnil
    rw [sha1_absorb_nil]
  · rw [if_neg h0]
    by_cases hsmall : data.length < 64 - s.bytes % 64
    · rw [if_pos hsmall, sha1_absorb_small data s hb hsmall]
    · rw [if_neg hsmall]
      push_neg at hsmall
      have htake : (data.take (64 - s.bytes % 64)).length = 64 - s.bytes % 64 := by
        simp only [List.length_take]; omega
      have hfill := sha1_absorb_fill (data.take (64 - s.bytes % 64)) s hb htake
      rw [htake] at hfill
      conv_rhs => rw [← List.take_append_drop (64 - s.bytes % 64) data,
        sha1_absorb_append, hfill]
      exact sha1_update_loop_eq_absorb (data.drop (64 - s.bytes % 64)).length _ le_rfl _
        (by show (s.bytes + (64 - s.bytes % 64)) % 18446744073709551616 <
          18446744073709551616; omega)
        (by show (s.bytes + (64 - s.bytes % 64)) % 18446744073709551616 % 64 = 0; omega)

/-- The byte absorber keeps the byte counter below `2^64`. -/
theorem sha1_absorb_bytes_lt : ∀ (data : List Nat) (s : sha1_t),
    s.bytes < 18446744073709551616 →
    (sha1_absorb s data).bytes < 18446744073709551616
  | [], s => fun hb => hb
  | b :: rest, s => by
    intro hb
    rw [sha1_absorb_cons]
    refine sha1_absorb_bytes_lt rest _ ?_
    unfold sha1_update_byte
    split_ifs <;> show (s.bytes + 1) % 18446744073709551616 < 18446744073709551616 <;> omega

/-- `sha1_update` keeps the byte counter below `2^64`. -/
theorem sha1_update_bytes_lt (s : sha1_t) (data : List Nat)
    (hb : s.bytes < 18446744073709551616) :
    (sha1_update s data).bytes < 18446744073709551616 := by
  rw [sha1_update_eq_absorb s data hb]
  exact sha1_absorb_bytes_lt data s hb

/-- Two consecutive updates absorb exactly the concatenation. -/
theorem sha1_update_update (s : sha1_t) (a b : List Nat)
    (hb : s.bytes < 18446744073709551616) :
    sha1_update (sha1_update s a) b = sha1_update s (a ++ b) := by
  rw [sha1_update_eq_absorb s a hb,
    sha1_update_eq_absorb _ b (sha1_absorb_bytes_lt a s hb),
    sha1_update_eq_absorb s (a ++ b) hb, sha1_absorb_append]

/-- Any sequence of updates equals one update with the concatenation. -/
theorem sha1_foldl_update_eq : ∀ (frags : List (List Nat)) (s : sha1_t),
    s.bytes < 18446744073709551616 →
    List.foldl sha1_update s frags = sha1_update s frags.flatten
  | [], s => fun _ => rfl
  | f :: rest, s => by
    intro hb
    show List.foldl sha1_update (sha1_update s f) rest = _
    rw [sha1_foldl_update_eq rest (sha1_update s f) (sha1_update_bytes_lt s f hb),
      sha1_update_update s f rest.flatten hb, List.flatten_cons]

/-- Invariant of the byte absorber started from a fresh state: the byte
counter equals the absorbed length modulo `2^64`, the staging block keeps
its 64 bytes, and the first `length % 64` block bytes are exactly the
unprocessed tail of the input. -/
theorem sha1_absorb_inv (flags : Nat) (xs : List Nat) :
    (sha1_absorb (sha1_init_flags flags) xs).bytes =
      xs.length % 18446744073709551616 ∧
    (sha1_absorb (sha1_init_flags flags) xs).block.length = 64 ∧
    (sha1_absorb (sha1_init_flags flags) xs).block.take (xs.length % 64) =
      xs.drop (xs.length - xs.length % 64) := by
  induction xs using List.reverseRecOn with
  | nil =>
    exact ⟨rfl, by rw [sha1_absorb_nil]; rfl, rfl⟩
  | append_singleton xs b ih =>
    obtain ⟨hbytes, hblk, htake⟩ := ih
    rw [sha1_absorb_append]
    rw [show sha1_absorb (sha1_absorb (sha1_init_flags flags) xs) [b] =
      sha1_update_byte (sha1_absorb (sha1_init_flags flags) xs) b from rfl]
    set s := sha1_absorb (sha1_init_flags flags) xs with hs
    by_cases hz : (xs.length + 1) % 64 = 0
    · rw [sha1_update_byte_hash s b (by omega)]
      refine ⟨?_, ?_, ?_⟩
      · show (s.bytes + 1) % 18446744073709551616 =
          (xs ++ [b]).length % 18446744073709551616
        simp only [List.length_append, List.length_cons, List.length_nil]
        omega
      · show (s.block.set (s.bytes % 64) b).length = 64
        rw [List.length_set]; exact hblk
      · show (s.block.set (s.bytes % 64) b).take ((xs ++ [b]).length % 64) =
          (xs ++ [b]).drop ((xs ++ [b]).length - (xs ++ [b]).length % 64)
        simp only [List.length_append, List.length_cons, List.length_nil]
        rw [show (xs.length + 1) % 64 = 0 from hz, List.take_zero]
        symm
        apply List.drop_eq_nil_of_le
        simp only [List.length_append, List.length_cons, List.length_nil]
        omega
    · rw [sha1_update_byte_nohash s b (by omega)]
      refine ⟨?_, ?_, ?_⟩
      · show (s.bytes + 1) % 18446744073709551616 =
          (xs ++ [b]).length % 18446744073709551616
        simp only [List.length_append, List.length_cons, List.length_nil]
        omega
      · show (s.block.set (s.bytes % 64) b).length = 64
        rw [List.length_set]; exact hblk
      · show (s.block.set (s.bytes % 64) b).take ((xs ++ [b]).length % 64) =
          (xs ++ [b]).drop ((xs ++ [b]).length - (xs ++ [b]).length % 64)
        simp only [List.length_append, List.length_cons, List.length_nil]
        have hu : s.bytes % 64 = xs.length % 64 := by omega
        have h1 : (xs.length + 1) % 64 = xs.length % 64 + 1 := by omega
        rw [h1, hu, take_set_succ b (by rw [hblk]; omega), htake]
        rw [show xs.length + 1 - (xs.length % 64 + 1) = xs.length - xs.length % 64 from by
          omega]
        rw [List.drop_append_of_le_length (by omega)]

/-- `memcpy_into` preserves the buffer length. -/
theorem memcpy_into_length : ∀ (src l : List Nat) (pos : Nat),
    (memcpy_into l pos src).length = l.length
  | [], _, _ => rfl
  | b :: rest, l, pos => by
    show (memcpy_into (l.set pos b) (pos + 1) rest).length = l.length
    rw [memcpy_into_length rest (l.set pos b) (pos + 1), List.length_set]

/-- `memset_zero` is `memcpy_into` of a zero-filled buffer. -/
theorem memset_zero_eq_memcpy : ∀ (n : Nat) (l : List Nat) (pos : Nat),
    memset_zero l pos n = memcpy_into l pos (List.replicate n 0)
  | 0, _, _ => rfl
  | n + 1, l, pos => memset_zero_eq_memcpy n (l.set pos 0) (pos + 1)

/-- The eight explicit stores of `sha1_end` are `memcpy_into` at offset 56. -/
theorem write_bits_be_eq_memcpy (l : List Nat) (bits : Nat) :
    write_bits_be l bits = memcpy_into l 56 (be64_bytes bits) := rfl

/-- `sha1_end` written out with its lets substituted. -/
theorem sha1_end_unfold (s : sha1_t) :
    sha1_end s =
      (if s.bytes % 64 + 1 > 56 then
        { s with
            h := sha1_hash_block (sha1_hash_block s.h
              (memset_zero (s.block.set (s.bytes % 64) 128) (s.bytes % 64 + 1)
                (64 - (s.bytes % 64 + 1))))
              (write_bits_be (memset_zero (memset_zero (s.block.set (s.bytes % 64) 128)
                (s.bytes % 64 + 1) (64 - (s.bytes % 64 + 1))) 0 56)
                ((8 * s.bytes) % 18446744073709551616)),
            block := write_bits_be (memset_zero (memset_zero
              (s.block.set (s.bytes % 64) 128)
              (s.bytes % 64 + 1) (64 - (s.bytes % 64 + 1))) 0 56)
              ((8 * s.bytes) % 18446744073709551616),
            blocks := ((s.blocks + 1) % 4294967296 + 1) % 4294967296 }
      else
        { s with
            h := sha1_hash_block s.h (write_bits_be (memset_zero
              (s.block.set (s.bytes % 64) 128) (s.bytes % 64 + 1)
              (56 - (s.bytes % 64 + 1))) ((8 * s.bytes) % 18446744073709551616)),
            block := write_bits_be (memset_zero (s.block.set (s.bytes % 64) 128)
              (s.bytes % 64 + 1) (56 - (s.bytes % 64 + 1)))
              ((8 * s.bytes) % 18446744073709551616),
            blocks := (s.blocks + 1) % 4294967296 }) := rfl

/-- The eight length-field bytes have length 8. -/
theorem be64_len (bits : Nat) : (be64_bytes bits).length = 8 := rfl

/-- `sha1_end` implements exactly the spec's padding: one padded block when
the length field fits (`fill ≤ 55`), two otherwise. -/
theorem sha1_end_eq_padding (s : sha1_t) (hlen : s.block.length = 64) :
    sha1_end s = sha1_end_padding s := by
  have hfill : s.bytes % 64 < 64 := Nat.mod_lt _ (by norm_num)
  have hsetlen : (s.block.set (s.bytes % 64) 128).length = 64 := by
    rw [List.length_set, hlen]
  have htakefill : (s.block.take (s.bytes % 64)).length = s.bytes % 64 := by
    rw [List.length_take, hlen]; omega
  have h128 : (s.block.set (s.bytes % 64) 128).take (s.bytes % 64 + 1) =
      s.block.take (s.bytes % 64) ++ [128] :=
    take_set_succ 128 (by rw [hlen]; omega)
  by_cases hc : s.bytes % 64 + 1 ≤ 56
  · -- single padded block
    have hdrop56 : (s.block.set (s.bytes % 64) 128).drop 56 = s.block.drop 56 := by
      rw [List.drop_set, if_pos (by omega)]
    have hm1 : memset_zero (s.block.set (s.bytes % 64) 128) (s.bytes % 64 + 1)
        (56 - (s.bytes % 64 + 1)) =
        (s.block.take (s.bytes % 64) ++ [128]) ++
          (List.replicate (55 - s.bytes % 64) 0 ++ s.block.drop 56) := by
      rw [memset_zero_eq_memcpy,
        memcpy_into_eq _ _ _ (by rw [List.length_replicate, hsetlen]; omega)]
      rw [h128]
      simp only [List.length_replicate]
      rw [show 56 - (s.bytes % 64 + 1) = 55 - s.bytes % 64 from by omega]
      rw [show s.bytes % 64 + 1 + (55 - s.bytes % 64) = 56 from by omega]
      rw [hdrop56]
      simp [List.append_assoc]
    have hm1len : (memset_zero (s.block.set (s.bytes % 64) 128) (s.bytes % 64 + 1)
        (56 - (s.bytes % 64 + 1))).length = 64 := by
      rw [memset_zero_eq_memcpy, memcpy_into_length, hsetlen]
    have hkey : write_bits_be (memset_zero (s.block.set (s.bytes % 64) 128)
        (s.bytes % 64 + 1) (56 - (s.bytes % 64 + 1)))
        ((8 * s.bytes) % 18446744073709551616) =
        s.block.take (s.bytes % 64) ++ 128 ::
          (List.replicate (55 - s.bytes % 64) 0 ++
            be64_bytes ((8 * s.bytes) % 18446744073709551616)) := by
      rw [write_bits_be_eq_memcpy,
        memcpy_into_eq _ _ _ (by simp only [be64_len, hm1len]; omega)]
      rw [List.drop_eq_nil_of_le (by simp only [be64_len, hm1len]; omega),
        List.append_nil]
      rw [hm1, ← List.append_assoc]
      rw [List.take_left' (by
        simp only [List.length_append, List.length_replicate, htakefill,
          List.length_cons, List.length_nil]
        omega)]
      simp [List.append_assoc]
    rw [sha1_end_unfold, if_neg (by omega)]
    unfold sha1_end_padding
    rw [if_pos hc, hkey]
  · -- zero-fill, extra block, then the length block
    have hm0 : memset_zero (s.block.set (s.bytes % 64) 128) (s.bytes % 64 + 1)
        (64 - (s.bytes % 64 + 1)) =
        s.block.take (s.bytes % 64) ++ 128 :: List.replicate (63 - s.bytes % 64) 0 := by
      rw [memset_zero_eq_memcpy,
        memcpy_into_eq _ _ _ (by rw [List.length_replicate, hsetlen]; omega)]
      rw [h128]
      simp only [List.length_replicate]
      rw [show 64 - (s.bytes % 64 + 1) = 63 - s.bytes % 64 from by omega]
      rw [show s.bytes % 64 + 1 + (63 - s.bytes % 64) = 64 from by omega]
      rw [List.drop_eq_nil_of_le hsetlen.le, List.append_nil]
      simp [List.append_assoc]
    have hm0len : (memset_zero (s.block.set (s.bytes % 64) 128) (s.bytes % 64 + 1)
        (64 - (s.bytes % 64 + 1))).length = 64 := by
      rw [memset_zero_eq_memcpy, memcpy_into_length, hsetlen]
    have hm1 : memset_zero (memset_zero (s.block.set (s.bytes % 64) 128)
        (s.bytes % 64 + 1) (64 - (s.bytes % 64 + 1))) 0 56 =
        List.replicate 56 0 ++ (memset_zero (s.block.set (s.bytes % 64) 128)
          (s.bytes % 64 + 1) (64 - (s.bytes % 64 + 1))).drop 56 := by
      rw [memset_zero_eq_memcpy 56,
        memcpy_into_eq _ _ _ (by simp only [List.length_replicate, hm0len]; omega)]
      simp only [List.take_zero, List.nil_append, List.length_replicate, Nat.zero_add]
    have hm1len : (memset_zero (memset_zero (s.block.set (s.bytes % 64) 128)
        (s.bytes % 64 + 1) (64 - (s.bytes % 64 + 1))) 0 56).length = 64 := by
      rw [memset_zero_eq_memcpy 56, memcpy_into_length, hm0len]
    have hkey : write_bits_be (memset_zero (memset_zero (s.block.set (s.bytes % 64) 128)
        (s.bytes % 64 + 1) (64 - (s.bytes % 64 + 1))) 0 56)
        ((8 * s.bytes) % 18446744073709551616) =
        List.replicate 56 0 ++ be64_bytes ((8 * s.bytes) % 18446744073709551616) := by
      rw [write_bits_be_eq_memcpy,
        memcpy_into_eq _ _ _ (by simp only [be64_len, hm1len]; omega)]
      rw [List.drop_eq_nil_of_le (by simp only [be64_len, hm1len]; omega),
        List.append_nil]
      rw [hm1]
      rw [List.take_left' (by simp)]
    rw [sha1_end_unfold, if_pos (by omega)]
    unfold sha1_end_padding
    rw [if_neg hc, hkey, hm0]

set_option maxRecDepth 1000000 in
set_option maxHeartbeats 400000000 in
theorem stepC_eq (a b c d e : Nat) :
    sha1_hash_block (a, b, c, d, e) blockC = stepC a b c d e := rfl

theorem stepCt_eq (hv : Nat × Nat × Nat × Nat × Nat) :
    sha1_hash_block hv blockC = stepCt hv := by
  obtain ⟨a, b, c, d, e⟩ := hv
  exact stepC_eq a b c d e

theorem loopI_succ (k : Nat) (hv : Nat × Nat × Nat × Nat × Nat) :
    loopI (k + 1) hv = loopI k (stepCt hv) := by
  show (if (stepCt hv).1 + (stepCt hv).2.1 + (stepCt hv).2.2.1 + (stepCt hv).2.2.2.1 +
      (stepCt hv).2.2.2.2 < 21474836480 then loopI k (stepCt hv)
    else loopI k (stepCt hv)) = loopI k (stepCt hv)
  exact ite_self _

theorem loopO_succ (k : Nat) (hv : Nat × Nat × Nat × Nat × Nat) :
    loopO (k + 1) hv = loopO k (loopI 125 hv) := by
  show (if (loopI 125 hv).1 + (loopI 125 hv).2.1 + (loopI 125 hv).2.2.1 +
      (loopI 125 hv).2.2.2.1 + (loopI 125 hv).2.2.2.2 < 21474836480 then
      loopO k (loopI 125 hv) else loopO k (loopI 125 hv)) = loopO k (loopI 125 hv)
  exact ite_self _

theorem iterT_succ (f : Nat × Nat × Nat × Nat × Nat → Nat × Nat × Nat × Nat × Nat)
    (n : Nat) (hv : Nat × Nat × Nat × Nat × Nat) :
    iterT f (n + 1) hv = iterT f n (f hv) := rfl

theorem stepD_eq (hv : Nat × Nat × Nat × Nat × Nat) :
    stepD hv = sha1_hash_block hv blockC := rfl

theorem hashBlocksC_succ (n : Nat) (hv : Nat × Nat × Nat × Nat × Nat) :
    hashBlocksC (n + 1) hv = hashBlocksC n (sha1_hash_block hv blockC) := by
  rw [← stepD_eq hv]
  exact iterT_succ stepD n hv

theorem hashBlocksC_add : ∀ (n m : Nat) (hv : Nat × Nat × Nat × Nat × Nat),
    hashBlocksC (m + n) hv = hashBlocksC m (hashBlocksC n hv)
  | 0, _, _ => rfl
  | n + 1, m, hv => by
    rw [show m + (n + 1) = m + n + 1 from rfl, hashBlocksC_succ (m + n) hv,
      hashBlocksC_succ n hv]
    exact hashBlocksC_add n m (sha1_hash_block hv blockC)

theorem loopI_eq : ∀ (k : Nat) (hv : Nat × Nat × Nat × Nat × Nat),
    loopI k hv = hashBlocksC k hv
  | 0, _ => rfl
  | k + 1, hv => by
    rw [loopI_succ, loopI_eq k (stepCt hv), ← stepCt_eq hv, ← hashBlocksC_succ]

theorem loopO_eq : ∀ (k : Nat) (hv : Nat × Nat × Nat × Nat × Nat),
    loopO k hv = hashBlocksC (125 * k) hv
  | 0, _ => rfl
  | k + 1, hv => by
    rw [loopO_succ, loopO_eq k (loopI 125 hv), loopI_eq 125 hv,
      show 125 * (k + 1) = 125 * k + 125 from by ring,
      hashBlocksC_add 125 (125 * k) hv]

/-- A `memcpy` that overwrites the whole buffer yields the source. -/
theorem memcpy_into_full (l src : List Nat) (h : src.length = l.length) :
    memcpy_into l 0 src = src := by
  rw [memcpy_into_eq _ _ _ (by omega), List.take_zero, List.nil_append, Nat.zero_add, h,
    List.drop_length, List.append_nil]

/-- Running the update loop on `64·n` bytes of `'a'` from a state whose
staging block is already the all-`'a'` block hashes `n` more copies of
that block. -/
theorem sha1_update_loop_repC : ∀ (n : Nat) (s : sha1_t), s.block = blockC →
    s.bytes < 18446744073709551616 → s.blocks < 4294967296 →
    sha1_update_loop s (List.replicate (64 * n) 97) =
      { h := hashBlocksC n s.h, block := blockC,
        bytes := (s.bytes + 64 * n) % 18446744073709551616,
        blocks := (s.blocks + n) % 4294967296, flags := s.flags }
  | 0, s, hb, hby, hbl => by
    rw [sha1_update_loop.eq_def]
    simp only [List.length_replicate]
    rw [dif_neg (by omega), if_neg (by omega)]
    rw [show (s.bytes + 64 * 0) % 18446744073709551616 = s.bytes from by omega,
      show (s.blocks + 0) % 4294967296 = s.blocks from by omega, ← hb]
    rfl
  | n + 1, s, hb, hby, hbl => by
    have hc : 64 ≤ (List.replicate (64 * (n + 1)) 97).length := by
      rw [List.length_replicate]; omega
    rw [sha1_update_loop.eq_def, dif_pos hc]
    show sha1_update_loop
        { s with block := memcpy_into s.block 0 ((List.replicate (64 * (n + 1)) 97).take 64),
                 bytes := (s.bytes + 64) % 18446744073709551616,
                 h := sha1_hash_block s.h
                   (memcpy_into s.block 0 ((List.replicate (64 * (n + 1)) 97).take 64)),
                 blocks := (s.blocks + 1) % 4294967296 }
        ((List.replicate (64 * (n + 1)) 97).drop 64) = _
    have htake : (List.replicate (64 * (n + 1)) 97).take 64 = List.replicate 64 97 := by
      rw [show 64 * (n + 1) = 64 + 64 * n from by ring, List.replicate_add,
        List.take_left' (by simp)]
    have hdrop : (List.replicate (64 * (n + 1)) 97).drop 64 = List.replicate (64 * n) 97 := by
      rw [show 64 * (n + 1) = 64 + 64 * n from by ring, List.replicate_add,
        List.drop_left' (by simp)]
    rw [htake, hdrop, hb,
      memcpy_into_full blockC (List.replicate 64 97) (by simp [blockC]),
      show List.replicate 64 97 = blockC from rfl]
    rw [sha1_update_loop_repC n
      { s with block := blockC, bytes := (s.bytes + 64) % 18446744073709551616,
               h := sha1_hash_block s.h blockC, blocks := (s.blocks + 1) % 4294967296 }
      rfl
      (by show (s.bytes + 64) % 18446744073709551616 < 18446744073709551616; omega)
      (by show (s.blocks + 1) % 4294967296 < 4294967296; omega)]
    show ({ h := hashBlocksC n (sha1_hash_block s.h blockC), block := blockC,
            bytes := ((s.bytes + 64) % 18446744073709551616 + 64 * n) %
              18446744073709551616,
            blocks := ((s.blocks + 1) % 4294967296 + n) % 4294967296,
            flags := s.flags } : sha1_t) =
      { h := hashBlocksC (n + 1) s.h, block := blockC,
        bytes := (s.bytes + 64 * (n + 1)) % 18446744073709551616,
        blocks := (s.blocks + (n + 1)) % 4294967296, flags := s.flags }
    rw [hashBlocksC_succ n s.h,
      show ((s.bytes + 64) % 18446744073709551616 + 64 * n) % 18446744073709551616 =
        (s.bytes + 64 * (n + 1)) % 18446744073709551616 from by omega,
      show ((s.blocks + 1) % 4294967296 + n) % 4294967296 =
        (s.blocks + (n + 1)) % 4294967296 from by omega]

/-- `sha1_update` on the million-`'a'` buffer from the initial state:
15625 compression rounds on the all-`'a'` block. -/
theorem sha1_updateC :
    sha1_update (sha1_init_flags 0) (List.replicate 1000000 97) =
      { h := hashBlocksC 15625 (1732584193, 4023233417, 2562383102, 271733878, 3285377520),
        block := blockC, bytes := 1000000, blocks := 15625, flags := 0 } := by
  have hh : (sha1_init_flags 0).h =
      (1732584193, 4023233417, 2562383102, 271733878, 3285377520) := rfl
  have hby : (sha1_init_flags 0).bytes = 0 := rfl
  have hbk : (sha1_init_flags 0).block = List.replicate 64 0 := rfl
  have hbl : (sha1_init_flags 0).blocks = 0 := rfl
  have hfl : (sha1_init_flags 0).flags = 0 := rfl
  rw [sha1_update_unfold, List.length_replicate, hby, hbk, hbl, hh, hfl]
  rw [if_neg (by norm_num), if_neg (by norm_num)]
  rw [show (0 : Nat) % 64 = 0 from by norm_num]
  rw [show (64 : Nat) - 0 = 64 from by norm_num]
  rw [show ((0 : Nat) + 64) % 18446744073709551616 = 64 from by norm_num]
  rw [show ((0 : Nat) + 1) % 4294967296 = 1 from by norm_num]
  have htake : (List.replicate 1000000 97).take 64 = List.replicate 64 97 := by
    rw [show (1000000 : Nat) = 64 + 999936 from by norm_num, List.replicate_add,
      List.take_left' (by simp)]
  have hdrop : (List.replicate 1000000 97).drop 64 = List.replicate (64 * 15624) 97 := by
    rw [show (1000000 : Nat) = 64 + 999936 from by norm_num, List.replicate_add,
      List.drop_left' (by simp), show (999936 : Nat) = 64 * 15624 from by norm_num]
  rw [htake, hdrop]
  rw [memcpy_into_full (List.replicate 64 0) (List.replicate 64 97) (by simp)]
  rw [show List.replicate 64 97 = blockC from rfl]
  rw [sha1_update_loop_repC 15624
    { h := sha1_hash_block (1732584193, 4023233417, 2562383102, 271733878, 3285377520)
        blockC,
      block := blockC, bytes := 64, blocks := 1, flags := 0 }
    rfl
    (by show (64 : Nat) < 18446744073709551616; norm_num)
    (by show (1 : Nat) < 4294967296; norm_num)]
  rw [show (15625 : Nat) = 15624 + 1 from by norm_num, hashBlocksC_succ 15624]
  show ({ h := hashBlocksC 15624 (sha1_hash_block (1732584193, 4023233417, 2562383102, 271733878, 3285377520) blockC), block := blockC, bytes := (64 + 64 * 15624) % 18446744073709551616, blocks := (1 + 15624) % 4294967296, flags := 0 } : sha1_t) =
    { h := hashBlocksC 15624 (sha1_hash_block (1732584193, 4023233417, 2562383102, 271733878, 3285377520) blockC), block := blockC, bytes := 1000000, blocks := 15624 + 1, flags := 0 }
  rw [show ((64 : Nat) + 64 * 15624) % 18446744073709551616 = 1000000 from by norm_num,
    show ((1 : Nat) + 15624) % 4294967296 = 15624 + 1 from by norm_num]

set_option maxRecDepth 1000000 in
set_option maxHeartbeats 400000000 in
/-- Kernel evaluation of 625 compression rounds on the all-`'a'` block,
blocks 0 to 625 of the million-`'a'` vector. -/
theorem sha1_chunk00 : loopO 5 (1732584193, 4023233417, 2562383102, 271733878, 3285377520) = (383117096, 626338163, 4182808852, 2751364182, 3366153677) := by decide

set_option maxRecDepth 1000000 in
set_option maxHeartbeats 400000000 in
/-- Kernel evaluation of 625 compression rounds on the all-`'a'` block,
blocks 625 to 1250 of the million-`'a'` vector. -/
theorem sha1_chunk01 : loopO 5 (383117096, 626338163, 4182808852, 2751364182, 3366153677) = (1759314508, 3549091363, 2009515153, 4053800481, 1240019780) := by decide

set_option maxRecDepth 1000000 in
set_option maxHeartbeats 400000000 in
/-- Kernel evaluation of 625 compression rounds on the all-`'a'` block,
blocks 1250 to 1875 of the million-`'a'` vector. -/
theorem sha1_chunk02 : loopO 5 (1759314508, 3549091363, 2009515153, 4053800481, 1240019780) = (883359930, 1368060909, 3097280670, 2037344640, 1117753131) := by decide

set_option maxRecDepth 1000000 in
set_option maxHeartbeats 400000000 in
/-- Kernel evaluation of 625 compression rounds on the all-`'a'` block,
blocks 1875 to 2500 of the million-`'a'` vector. -/
theorem sha1_chunk03 : loopO 5 (883359930, 1368060909, 3097280670, 2037344640, 1117753131) = (788074567, 3202516719, 2562408720, 1710300668, 1581545023) := by decide

set_option maxRecDepth 1000000 in
set_option maxHeartbeats 400000000 in
/-- Kernel evaluation of 625 compression rounds on the all-`'a'` block,
blocks 2500 to 3125 of the million-`'a'` vector. -/
theorem sha1_chunk04 : loopO 5 (788074567, 3202516719, 2562408720, 1710300668, 1581545023) = (1543656767, 2251408121, 4247618056, 4117055894, 3977180739) := by decide

set_option maxRecDepth 1000000 in
set_option maxHeartbeats 400000000 in
/-- Kernel evaluation of 625 compression rounds on the all-`'a'` block,
blocks 3125 to 3750 of the million-`'a'` vector. -/
theorem sha1_chunk05 : loopO 5 (1543656767, 2251408121, 4247618056, 4117055894, 3977180739) = (2759489585, 957767696, 4286836950, 2884322731, 321433581) := by decide

set_option maxRecDepth 1000000 in
set_option maxHeartbeats 400000000 in
/-- Kernel evaluation of 625 compression rounds on the all-`'a'` block,
blocks 3750 to 4375 of the million-`'a'` vector. -/
theorem sha1_chunk06 : loopO 5 (2759489585, 957767696, 4286836950, 2884322731, 321433581) = (1846103768, 590511824, 1007991389, 2848672188, 1755555496) := by decide

set_option maxRecDepth 1000000 in
set_option maxHeartbeats 400000000 in
/-- Kernel evaluation of 625 compression rounds on the all-`'a'` block,
blocks 4375 to 5000 of the million-`'a'` vector. -/
theorem sha1_chunk07 : loopO 5 (1846103768, 590511824, 1007991389, 2848672188, 1755555496) = (271993472, 1060296977, 317791480, 2099025037, 3670299093) := by decide

set_option maxRecDepth 1000000 in
set_option maxHeartbeats 400000000 in
/-- Kernel evaluation of 625 compression rounds on the all-`'a'` block,
blocks 5000 to 5625 of the million-`'a'` vector. -/
theorem sha1_chunk08 : loopO 5 (271993472, 1060296977, 317791480, 2099025037, 3670299093) = (989380191, 3507016505, 3188092538, 2359322809, 993765543) := by decide

set_option maxRecDepth 1000000 in
set_option maxHeartbeats 400000000 in
/-- Kernel evaluation of 625 compression rounds on the all-`'a'` block,
blocks 5625 to 6250 of the million-`'a'` vector. -/
theorem sha1_chunk09 : loopO 5 (989380191, 3507016505, 3188092538, 2359322809, 993765543) = (1882013764, 2143893764, 2979350650, 3850471338, 1318387388) := by decide

set_option maxRecDepth 1000000 in
set_option maxHeartbeats 400000000 in
/-- Kernel evaluation of 625 compression rounds on the all-`'a'` block,
blocks 6250 to 6875 of the million-`'a'` vector. -/
theorem sha1_chunk10 : loopO 5 (1882013764, 2143893764, 2979350650, 3850471338, 1318387388) = (3598762837, 1701760163, 1879148084, 1873204019, 3366217194) := by decide

set_option maxRecDepth 1000000 in
set_option maxHeartbeats 400000000 in
/-- Kernel evaluation of 625 compression rounds on the all-`'a'` block,
blocks 6875 to 7500 of the million-`'a'` vector. -/
theorem sha1_chunk11 : loopO 5 (3598762837, 1701760163, 1879148084, 1873204019, 3366217194) = (3785051673, 1547648396, 1990551697, 300317170, 2075824074) := by decide

set_option maxRecDepth 1000000 in
set_option maxHeartbeats 400000000 in
/-- Kernel evaluation of 625 compression rounds on the all-`'a'` block,
blocks 7500 to 8125 of the million-`'a'` vector. -/
theorem sha1_chunk12 : loopO 5 (3785051673, 1547648396, 1990551697, 300317170, 2075824074) = (4136540567, 2876025846, 2320272116, 1496143772, 957975145) := by decide

set_option maxRecDepth 1000000 in
set_option maxHeartbeats 400000000 in
/-- Kernel evaluation of 625 compression rounds on the all-`'a'` block,
blocks 8125 to 8750 of the million-`'a'` vector. -/
theorem sha1_chunk13 : loopO 5 (4136540567, 2876025846, 2320272116, 1496143772, 957975145) = (968861045, 1785701477, 1218289515, 4146302554, 1167075212) := by decide

set_option maxRecDepth 1000000 in
set_option maxHeartbeats 400000000 in
/-- Kernel evaluation of 625 compression rounds on the all-`'a'` block,
blocks 8750 to 9375 of the million-`'a'` vector. -/
theorem sha1_chunk14 : loopO 5 (968861045, 1785701477, 1218289515, 4146302554, 1167075212) = (3279703266, 3670769863, 3408221997, 3730904313, 1864669844) := by decide

set_option maxRecDepth 1000000 in
set_option maxHeartbeats 400000000 in
/-- Kernel evaluation of 625 compression rounds on the all-`'a'` block,
blocks 9375 to 10000 of the million-`'a'` vector. -/
theorem sha1_chunk15 : loopO 5 (3279703266, 3670769863, 3408221997, 3730904313, 1864669844) = (3662101917, 1034553309, 525071447, 2207474342, 855712429) := by decide

set_option maxRecDepth 1000000 in
set_option maxHeartbeats 400000000 in
/-- Kernel evaluation of 625 compression rounds on the all-`'a'` block,
blocks 10000 to 10625 of the million-`'a'` vector. -/
theorem sha1_chunk16 : loopO 5 (3662101917, 1034553309, 525071447, 2207474342, 855712429) = (394743694, 1094182911, 2910989040, 808022533, 3885732337) := by decide

set_option maxRecDepth 1000000 in
set_option maxHeartbeats 400000000 in
/-- Kernel evaluation of 625 compression rounds on the all-`'a'` block,
blocks 10625 to 11250 of the million-`'a'` vector. -/
theorem sha1_chunk17 : loopO 5 (394743694, 1094182911, 2910989040, 808022533, 3885732337) = (4049973583, 1157450648, 1474564701, 439043023, 1953466173) := by decide

set_option maxRecDepth 1000000 in
set_option maxHeartbeats 400000000 in
/-- Kernel evaluation of 625 compression rounds on the all-`'a'` block,
blocks 11250 to 11875 of the million-`'a'` vector. -/
theorem sha1_chunk18 : loopO 5 (4049973583, 1157450648, 1474564701, 439043023, 1953466173) = (1448957642, 1903717378, 2909205587, 3618648472, 3475381225) := by decide

set_option maxRecDepth 1000000 in
set_option maxHeartbeats 400000000 in
/-- Kernel evaluation of 625 compression rounds on the all-`'a'` block,
blocks 11875 to 12500 of the million-`'a'` vector. -/
theorem sha1_chunk19 : loopO 5 (1448957642, 1903717378, 2909205587, 3618648472, 3475381225) = (2560686508, 2864810195, 2705390723, 2896164012, 2354954463) := by decide

set_option maxRecDepth 1000000 in
set_option maxHeartbeats 400000000 in
/-- Kernel evaluation of 625 compression rounds on the all-`'a'` block,
blocks 12500 to 13125 of the million-`'a'` vector. -/
theorem sha1_chunk20 : loopO 5 (2560686508, 2864810195, 2705390723, 2896164012, 2354954463) = (3172262437, 3276376606, 4268195409, 3332380543, 1552366365) := by decide

set_option maxRecDepth 1000000 in
set_option maxHeartbeats 400000000 in
/-- Kernel evaluation of 625 compression rounds on the all-`'a'` block,
blocks 13125 to 13750 of the million-`'a'` vector. -/
theorem sha1_chunk21 : loopO 5 (3172262437, 3276376606, 4268195409, 3332380543, 1552366365) = (3804548323, 3571961048, 2691267586, 1202527316, 4257269288) := by decide

set_option maxRecDepth 1000000 in
set_option maxHeartbeats 400000000 in
/-- Kernel evaluation of 625 compression rounds on the all-`'a'` block,
blocks 13750 to 14375 of the million-`'a'` vector. -/
theorem sha1_chunk22 : loopO 5 (3804548323, 3571961048, 2691267586, 1202527316, 4257269288) = (688784909, 436800066, 1182191388, 39600903, 3545183051) := by decide

set_option maxRecDepth 1000000 in
set_option maxHeartbeats 400000000 in
/-- Kernel evaluation of 625 compression rounds on the all-`'a'` block,
blocks 14375 to 15000 of the million-`'a'` vector. -/
theorem sha1_chunk23 : loopO 5 (688784909, 436800066, 1182191388, 39600903, 3545183051) = (2393083162, 544130160, 1071763312, 3492225219, 2028885752) := by decide

set_option maxRecDepth 1000000 in
set_option maxHeartbeats 400000000 in
/-- Kernel evaluation of 625 compression rounds on the all-`'a'` block,
blocks 15000 to 15625 of the million-`'a'` vector. -/
theorem sha1_chunk24 : loopO 5 (2393083162, 544130160, 1071763312, 3492225219, 2028885752) = (2689137366, 452846373, 4260416976, 1315111631, 1780696285) := by decide

/-- The full 15625-round evaluation, assembled from the 25 chunks. -/
theorem hashBlocksC_total :
    hashBlocksC 15625 (1732584193, 4023233417, 2562383102, 271733878, 3285377520) =
      (2689137366, 452846373, 4260416976, 1315111631, 1780696285) := by
  have e00 : hashBlocksC 625 (1732584193, 4023233417, 2562383102, 271733878, 3285377520) = (383117096, 626338163, 4182808852, 2751364182, 3366153677) := by
    rw [show (625 : Nat) = 125 * 5 from by norm_num, ← loopO_eq]
    exact sha1_chunk00
  have e01 : hashBlocksC 625 (383117096, 626338163, 4182808852, 2751364182, 3366153677) = (1759314508, 3549091363, 2009515153, 4053800481, 1240019780) := by
    rw [show (625 : Nat) = 125 * 5 from by norm_num, ← loopO_eq]
    exact sha1_chunk01
  have e02 : hashBlocksC 625 (1759314508, 3549091363, 2009515153, 4053800481, 1240019780) = (883359930, 1368060909, 3097280670, 2037344640, 1117753131) := by
    rw [show (625 : Nat) = 125 * 5 from by norm_num, ← loopO_eq]
    exact sha1_chunk02
  have e03 : hashBlocksC 625 (883359930, 1368060909, 3097280670, 2037344640, 1117753131) = (788074567, 3202516719, 2562408720, 1710300668, 1581545023) := by
    rw [show (625 : Nat) = 125 * 5 from by norm_num, ← loopO_eq]
    exact sha1_chunk03
  have e04 : hashBlocksC 625 (788074567, 3202516719, 2562408720, 1710300668, 1581545023) = (1543656767, 2251408121, 4247618056, 4117055894, 3977180739) := by
    rw [show (625 : Nat) = 125 * 5 from by norm_num, ← loopO_eq]
    exact sha1_chunk04
  have e05 : hashBlocksC 625 (1543656767, 2251408121, 4247618056, 4117055894, 3977180739) = (2759489585, 957767696, 4286836950, 2884322731, 321433581) := by
    rw [show (625 : Nat) = 125 * 5 from by norm_num, ← loopO_eq]
    exact sha1_chunk05
  have e06 : hashBlocksC 625 (2759489585, 957767696, 4286836950, 2884322731, 321433581) = (1846103768, 590511824, 1007991389, 2848672188, 1755555496) := by
    rw [show (625 : Nat) = 125 * 5 from by norm_num, ← loopO_eq]
    exact sha1_chunk06
  have e07 : hashBlocksC 625 (1846103768, 590511824, 1007991389, 2848672188, 1755555496) = (271993472, 1060296977, 317791480, 2099025037, 3670299093) := by
    rw [show (625 : Nat) = 125 * 5 from by norm_num, ← loopO_eq]
    exact sha1_chunk07
  have e08 : hashBlocksC 625 (271993472, 1060296977, 317791480, 2099025037, 3670299093) = (989380191, 3507016505, 3188092538, 2359322809, 993765543) := by
    rw [show (625 : Nat) = 125 * 5 from by norm_num, ← loopO_eq]
    exact sha1_chunk08
  have e09 : hashBlocksC 625 (989380191, 3507016505, 3188092538, 2359322809, 993765543) = (1882013764, 2143893764, 2979350650, 3850471338, 1318387388) := by
    rw [show (625 : Nat) = 125 * 5 from by norm_num, ← loopO_eq]
    exact sha1_chunk09
  have e10 : hashBlocksC 625 (1882013764, 2143893764, 2979350650, 3850471338, 1318387388) = (3598762837, 1701760163, 1879148084, 1873204019, 3366217194) := by
    rw [show (625 : Nat) = 125 * 5 from by norm_num, ← loopO_eq]
    exact sha1_chunk10
  have e11 : hashBlocksC 625 (3598762837, 1701760163, 1879148084, 1873204019, 3366217194) = (3785051673, 1547648396, 1990551697, 300317170, 2075824074) := by
    rw [show (625 : Nat) = 125 * 5 from by norm_num, ← loopO_eq]
    exact sha1_chunk11
  have e12 : hashBlocksC 625 (3785051673, 1547648396, 1990551697, 300317170, 2075824074) = (4136540567, 2876025846, 2320272116, 1496143772, 957975145) := by
    rw [show (625 : Nat) = 125 * 5 from by norm_num, ← loopO_eq]
    exact sha1_chunk12
  have e13 : hashBlocksC 625 (4136540567, 2876025846, 2320272116, 1496143772, 957975145) = (968861045, 1785701477, 1218289515, 4146302554, 1167075212) := by
    rw [show (625 : Nat) = 125 * 5 from by norm_num, ← loopO_eq]
    exact sha1_chunk13
  have e14 : hashBlocksC 625 (968861045, 1785701477, 1218289515, 4146302554, 1167075212) = (3279703266, 3670769863, 3408221997, 3730904313, 1864669844) := by
    rw [show (625 : Nat) = 125 * 5 from by norm_num, ← loopO_eq]
    exact sha1_chunk14
  have e15 : hashBlocksC 625 (3279703266, 3670769863, 3408221997, 3730904313, 1864669844) = (3662101917, 1034553309, 525071447, 2207474342, 855712429) := by
    rw [show (625 : Nat) = 125 * 5 from by norm_num, ← loopO_eq]
    exact sha1_chunk15
  have e16 : hashBlocksC 625 (3662101917, 1034553309, 525071447, 2207474342, 855712429) = (394743694, 1094182911, 2910989040, 808022533, 3885732337) := by
    rw [show (625 : Nat) = 125 * 5 from by norm_num, ← loopO_eq]
    exact sha1_chunk16
  have e17 : hashBlocksC 625 (394743694, 1094182911, 2910989040, 808022533, 3885732337) = (4049973583, 1157450648, 1474564701, 439043023, 1953466173) := by
    rw [show (625 : Nat) = 125 * 5 from by norm_num, ← loopO_eq]
    exact sha1_chunk17
  have e18 : hashBlocksC 625 (4049973583, 1157450648, 1474564701, 439043023, 1953466173) = (1448957642, 1903717378, 2909205587, 3618648472, 3475381225) := by
    rw [show (625 : Nat) = 125 * 5 from by norm_num, ← loopO_eq]
    exact sha1_chunk18
  have e19 : hashBlocksC 625 (1448957642, 1903717378, 2909205587, 3618648472, 3475381225) = (2560686508, 2864810195, 2705390723, 2896164012, 2354954463) := by
    rw [show (625 : Nat) = 125 * 5 from by norm_num, ← loopO_eq]
    exact sha1_chunk19
  have e20 : hashBlocksC 625 (2560686508, 2864810195, 2705390723, 2896164012, 2354954463) = (3172262437, 3276376606, 4268195409, 3332380543, 1552366365) := by
    rw [show (625 : Nat) = 125 * 5 from by norm_num, ← loopO_eq]
    exact sha1_chunk20
  have e21 : hashBlocksC 625 (3172262437, 3276376606, 4268195409, 3332380543, 1552366365) = (3804548323, 3571961048, 2691267586, 1202527316, 4257269288) := by
    rw [show (625 : Nat) = 125 * 5 from by norm_num, ← loopO_eq]
    exact sha1_chunk21
  have e22 : hashBlocksC 625 (3804548323, 3571961048, 2691267586, 1202527316, 4257269288) = (688784909, 436800066, 1182191388, 39600903, 3545183051) := by
    rw [show (625 : Nat) = 125 * 5 from by norm_num, ← loopO_eq]
    exact sha1_chunk22
  have e23 : hashBlocksC 625 (688784909, 436800066, 1182191388, 39600903, 3545183051) = (2393083162, 544130160, 1071763312, 3492225219, 2028885752) := by
    rw [show (625 : Nat) = 125 * 5 from by norm_num, ← loopO_eq]
    exact sha1_chunk23
  have e24 : hashBlocksC 625 (2393083162, 544130160, 1071763312, 3492225219, 2028885752) = (2689137366, 452846373, 4260416976, 1315111631, 1780696285) := by
    rw [show (625 : Nat) = 125 * 5 from by norm_num, ← loopO_eq]
    exact sha1_chunk24
  calc hashBlocksC 15625 (1732584193, 4023233417, 2562383102, 271733878, 3285377520)
    _ = hashBlocksC 15000 (383117096, 626338163, 4182808852, 2751364182, 3366153677) := by
      rw [show (15625 : Nat) = 15000 + 625 from by norm_num,
        hashBlocksC_add 625 15000 (1732584193, 4023233417, 2562383102, 271733878, 3285377520), e00]
    _ = hashBlocksC 14375 (1759314508, 3549091363, 2009515153, 4053800481, 1240019780) := by
      rw [show (15000 : Nat) = 14375 + 625 from by norm_num,
        hashBlocksC_add 625 14375 (383117096, 626338163, 4182808852, 2751364182, 3366153677), e01]
    _ = hashBlocksC 13750 (883359930, 1368060909, 3097280670, 2037344640, 1117753131) := by
      rw [show (14375 : Nat) = 13750 + 625 from by norm_num,
        hashBlocksC_add 625 13750 (1759314508, 3549091363, 2009515153, 4053800481, 1240019780), e02]
    _ = hashBlocksC 13125 (788074567, 3202516719, 2562408720, 1710300668, 1581545023) := by
      rw [show (13750 : Nat) = 13125 + 625 from by norm_num,
        hashBlocksC_add 625 13125 (883359930, 1368060909, 3097280670, 2037344640, 1117753131), e03]
    _ = hashBlocksC 12500 (1543656767, 2251408121, 4247618056, 4117055894, 3977180739) := by
      rw [show (13125 : Nat) = 12500 + 625 from by norm_num,
        hashBlocksC_add 625 12500 (788074567, 3202516719, 2562408720, 1710300668, 1581545023), e04]
    _ = hashBlocksC 11875 (2759489585, 957767696, 4286836950, 2884322731, 321433581) := by
      rw [show (12500 : Nat) = 11875 + 625 from by norm_num,
        hashBlocksC_add 625 11875 (1543656767, 2251408121, 4247618056, 4117055894, 3977180739), e05]
    _ = hashBlocksC 11250 (1846103768, 590511824, 1007991389, 2848672188, 1755555496) := by
      rw [show (11875 : Nat) = 11250 + 625 from by norm_num,
        hashBlocksC_add 625 11250 (2759489585, 957767696, 4286836950, 2884322731, 321433581), e06]
    _ = hashBlocksC 10625 (271993472, 1060296977, 317791480, 2099025037, 3670299093) := by
      rw [show (11250 : Nat) = 10625 + 625 from by norm_num,
        hashBlocksC_add 625 10625 (1846103768, 590511824, 1007991389, 2848672188, 1755555496), e07]
    _ = hashBlocksC 10000 (989380191, 3507016505, 3188092538, 2359322809, 993765543) := by
      rw [show (10625 : Nat) = 10000 + 625 from by norm_num,
        hashBlocksC_add 625 10000 (271993472, 1060296977, 317791480, 2099025037, 3670299093), e08]
    _ = hashBlocksC 9375 (1882013764, 2143893764, 2979350650, 3850471338, 1318387388) := by
      rw [show (10000 : Nat) = 9375 + 625 from by norm_num,
        hashBlocksC_add 625 9375 (989380191, 3507016505, 3188092538, 2359322809, 993765543), e09]
    _ = hashBlocksC 8750 (3598762837, 1701760163, 1879148084, 1873204019, 3366217194) := by
      rw [show (9375 : Nat) = 8750 + 625 from by norm_num,
        hashBlocksC_add 625 8750 (1882013764, 2143893764, 2979350650, 3850471338, 1318387388), e10]
    _ = hashBlocksC 8125 (3785051673, 1547648396, 1990551697, 300317170, 2075824074) := by
      rw [show (8750 : Nat) = 8125 + 625 from by norm_num,
        hashBlocksC_add 625 8125 (3598762837, 1701760163, 1879148084, 1873204019, 3366217194), e11]
    _ = hashBlocksC 7500 (4136540567, 2876025846, 2320272116, 1496143772, 957975145) := by
      rw [show (8125 : Nat) = 7500 + 625 from by norm_num,
        hashBlocksC_add 625 7500 (3785051673, 1547648396, 1990551697, 300317170, 2075824074), e12]
    _ = hashBlocksC 6875 (968861045, 1785701477, 1218289515, 4146302554, 1167075212) := by
      rw [show (7500 : Nat) = 6875 + 625 from by norm_num,
        hashBlocksC_add 625 6875 (4136540567, 2876025846, 2320272116, 1496143772, 957975145), e13]
    _ = hashBlocksC 6250 (3279703266, 3670769863, 3408221997, 3730904313, 1864669844) := by
      rw [show (6875 : Nat) = 6250 + 625 from by norm_num,
        hashBlocksC_add 625 6250 (968861045, 1785701477, 1218289515, 4146302554, 1167075212), e14]
    _ = hashBlocksC 5625 (3662101917, 1034553309, 525071447, 2207474342, 855712429) := by
      rw [show (6250 : Nat) = 5625 + 625 from by norm_num,
        hashBlocksC_add 625 5625 (3279703266, 3670769863, 3408221997, 3730904313, 1864669844), e15]
    _ = hashBlocksC 5000 (394743694, 1094182911, 2910989040, 808022533, 3885732337) := by
      rw [show (5625 : Nat) = 5000 + 625 from by norm_num,
        hashBlocksC_add 625 5000 (3662101917, 1034553309, 525071447, 2207474342, 855712429), e16]
    _ = hashBlocksC 4375 (4049973583, 1157450648, 1474564701, 439043023, 1953466173) := by
      rw [show (5000 : Nat) = 4375 + 625 from by norm_num,
        hashBlocksC_add 625 4375 (394743694, 1094182911, 2910989040, 808022533, 3885732337), e17]
    _ = hashBlocksC 3750 (1448957642, 1903717378, 2909205587, 3618648472, 3475381225) := by
      rw [show (4375 : Nat) = 3750 + 625 from by norm_num,
        hashBlocksC_add 625 3750 (4049973583, 1157450648, 1474564701, 439043023, 1953466173), e18]
    _ = hashBlocksC 3125 (2560686508, 2864810195, 2705390723, 2896164012, 2354954463) := by
      rw [show (3750 : Nat) = 3125 + 625 from by norm_num,
        hashBlocksC_add 625 3125 (1448957642, 1903717378, 2909205587, 3618648472, 3475381225), e19]
    _ = hashBlocksC 2500 (3172262437, 3276376606, 4268195409, 3332380543, 1552366365) := by
      rw [show (3125 : Nat) = 2500 + 625 from by norm_num,
        hashBlocksC_add 625 2500 (2560686508, 2864810195, 2705390723, 2896164012, 2354954463), e20]
    _ = hashBlocksC 1875 (3804548323, 3571961048, 2691267586, 1202527316, 4257269288) := by
      rw [show (2500 : Nat) = 1875 + 625 from by norm_num,
        hashBlocksC_add 625 1875 (3172262437, 3276376606, 4268195409, 3332380543, 1552366365), e21]
    _ = hashBlocksC 1250 (688784909, 436800066, 1182191388, 39600903, 3545183051) := by
      rw [show (1875 : Nat) = 1250 + 625 from by norm_num,
        hashBlocksC_add 625 1250 (3804548323, 3571961048, 2691267586, 1202527316, 4257269288), e22]
    _ = hashBlocksC 625 (2393083162, 544130160, 1071763312, 3492225219, 2028885752) := by
      rw [show (1250 : Nat) = 625 + 625 from by norm_num,
        hashBlocksC_add 625 625 (688784909, 436800066, 1182191388, 39600903, 3545183051), e23]
    _ = (2689137366, 452846373, 4260416976, 1315111631, 1780696285) := e24

end Sha1

namespace FindPwned

/-- One unfolding of the search loop with the local `mid`, `pwned` and
`cmp` of the C body written out. -/
theorem find_loop_succ_bin (data : List pwned_info) (hash : List Nat)
    (fuel lo hi : Nat) :
    find_loop data hash (fuel + 1) lo hi =
      (if memcmp_bytes hash (data.getD ((lo + hi) / 2) default_info).hash 20 = 0 then
        some (true, (data.getD ((lo + hi) / 2) default_info).count)
      else if lo = (lo + hi) / 2 then some (false, 0)
      else if memcmp_bytes hash (data.getD ((lo + hi) / 2) default_info).hash 20 < 0 then
        find_loop data hash fuel lo ((lo + hi) / 2)
      else find_loop data hash fuel ((lo + hi) / 2) hi) := rfl

/-- Fuel adequacy for the binary-search loop: with `lo ≤ hi` and fuel
exceeding `hi - lo`, the loop exits with a result, and a not-found exit
carries count 0 while a found exit carries the count of a record in
`[lo, hi]` whose hash compares equal. -/
theorem find_loop_total (data : List pwned_info) (hash : List Nat) :
    ∀ (fuel lo hi : Nat), lo ≤ hi → hi - lo < fuel →
    ∃ b c, find_loop data hash fuel lo hi = some (b, c) ∧
      (b = false → c = 0) ∧
      (b = true → ∃ i, lo ≤ i ∧ i ≤ hi ∧
        memcmp_bytes hash (data.getD i default_info).hash 20 = 0 ∧
        c = (data.getD i default_info).count) := by
  intro fuel
  induction fuel with
  | zero => intro lo hi h1 h2; omega
  | succ fuel ih =>
    intro lo hi h1 h2
    rw [find_loop_succ_bin]
    by_cases hc : memcmp_bytes hash (data.getD ((lo + hi) / 2) default_info).hash 20 = 0
    · rw [if_pos hc]
      refine ⟨true, (data.getD ((lo + hi) / 2) default_info).count, rfl, by simp, ?_⟩
      intro _
      exact ⟨(lo + hi) / 2, by omega, by omega, hc, rfl⟩
    · rw [if_neg hc]
      by_cases hm : lo = (lo + hi) / 2
      · rw [if_pos hm]
        exact ⟨false, 0, rfl, by simp, by simp⟩
      · rw [if_neg hm]
        by_cases hlt : memcmp_bytes hash (data.getD ((lo + hi) / 2) default_info).hash 20 < 0
        · rw [if_pos hlt]
          obtain ⟨b, c, heq, hf, ht⟩ := ih lo ((lo + hi) / 2) (by omega) (by omega)
          refine ⟨b, c, heq, hf, ?_⟩
          intro hb
          obtain ⟨i, hi1, hi2, hi3, hi4⟩ := ht hb
          exact ⟨i, hi1, by omega, hi3, hi4⟩
        · rw [if_neg hlt]
          obtain ⟨b, c, heq, hf, ht⟩ := ih ((lo + hi) / 2) hi (by omega) (by omega)
          refine ⟨b, c, heq, hf, ?_⟩
          intro hb
          obtain ⟨i, hi1, hi2, hi3, hi4⟩ := ht hb
          exact ⟨i, by omega, hi2, hi3, hi4⟩

/-- If some character of an even-length string is not a hex digit, the
hex-decoding loop of `handle_input` fails. -/
theorem decode_hex_hash_none : ∀ l : List Nat, l.length % 2 = 0 →
    (∃ c ∈ l, hexval c < 0) → decode_hex_hash l = none
  | [] => by simp
  | [c] => by intro h; simp at h
  | c1 :: c2 :: rest => by
    intro hlen hex
    by_cases h1 : hexval c1 < 0 ∨ hexval c2 < 0
    · simp only [decode_hex_hash, hex2byte]
      rw [if_pos h1]
    · push_neg at h1
      have hr : ∃ c ∈ rest, hexval c < 0 := by
        rcases hex with ⟨c, hc, hneg⟩
        rcases hc with _ | ⟨_, hc⟩
        · omega
        · rcases hc with _ | ⟨_, hc⟩
          · omega
          · exact ⟨c, by assumption, hneg⟩
      have := decode_hex_hash_none rest (by simp at hlen; omega) hr
      simp only [decode_hex_hash, this]
      rcases hb : hex2byte c1 c2 with _ | b <;> simp

/-- `hexval` gives a hex digit the same value in either case. -/
theorem hexval_case (c : Nat) :
    hexval (FindPwnedText.c_toupper c) = hexval (FindPwnedText.c_tolower c) := by
  unfold hexval FindPwnedText.c_toupper FindPwnedText.c_tolower
  split_ifs <;> omega

/-- `hex2byte` decodes a pair of hex characters the same in either case. -/
theorem hex2byte_case (c1 c2 : Nat) :
    hex2byte (FindPwnedText.c_toupper c1) (FindPwnedText.c_toupper c2) =
      hex2byte (FindPwnedText.c_tolower c1) (FindPwnedText.c_tolower c2) := by
  simp only [hex2byte, hexval_case]

/-- The hex-decoding loop decodes an upper-cased and a lower-cased string
to the same bytes. -/
theorem decode_case : ∀ t : List Nat,
    decode_hex_hash (t.map FindPwnedText.c_toupper) =
      decode_hex_hash (t.map FindPwnedText.c_tolower)
  | [] => rfl
  | [c] => rfl
  | c1 :: c2 :: rest => by
    simp only [List.map_cons, decode_hex_hash, hex2byte_case, decode_case rest]

end FindPwned

namespace FindPwnedText

/-- Case folding: lowering an upper-cased byte equals lowering the byte. -/
theorem c_tolower_c_toupper (c : Nat) : c_tolower (c_toupper c) = c_tolower c := by
  unfold c_tolower c_toupper
  split_ifs <;> omega

/-- `tolower` is idempotent. -/
theorem c_tolower_idem (c : Nat) : c_tolower (c_tolower c) = c_tolower c := by
  unfold c_tolower
  split_ifs <;> omega

/-- One unfolding of `strncasecmp` on two nonempty strings. -/
theorem strncasecmp_cons (a b : Nat) (as bs : List Nat) (n : Nat) :
    strncasecmp (a :: as) (b :: bs) (n + 1) =
      (if c_tolower a < c_tolower b then -1
       else if c_tolower b < c_tolower a then 1
       else if c_tolower a = 0 then 0
       else strncasecmp as bs n) := rfl

/-- `strncasecmp` does not see the case of its first argument. -/
theorem strncasecmp_case : ∀ (n : Nat) (a b : List Nat),
    strncasecmp (a.map c_toupper) b n = strncasecmp (a.map c_tolower) b n
  | 0, a, b => by cases a <;> cases b <;> rfl
  | n + 1, [], b => by cases b <;> rfl
  | n + 1, x :: xs, [] => rfl
  | n + 1, x :: xs, y :: ys => by
    rw [List.map_cons, List.map_cons, strncasecmp_cons, strncasecmp_cons,
      c_tolower_c_toupper, c_tolower_idem]
    split_ifs <;> first | rfl | exact strncasecmp_case n xs ys

/-- One unfolding of the text-program search loop. -/
theorem find_loop_succ_text (data hash : List Nat) (fuel lo hi : Nat) :
    find_loop data hash (fuel + 1) lo hi =
      (if strncasecmp hash (data.drop (((lo + hi) / 2) * kTextHashLineBytes)) 40 = 0 then
        some (true, ((atoi ((data.drop (((lo + hi) / 2) * kTextHashLineBytes)).drop 41)).emod
          18446744073709551616).toNat)
      else if lo = (lo + hi) / 2 then some (false, 0)
      else if strncasecmp hash (data.drop (((lo + hi) / 2) * kTextHashLineBytes)) 40 < 0 then
        find_loop data hash fuel lo ((lo + hi) / 2)
      else find_loop data hash fuel ((lo + hi) / 2) hi) := rfl

/-- The binary-search loop of the text program gives the same answer for an
upper-cased and a lower-cased target. -/
theorem find_loop_case : ∀ (fuel : Nat) (data t : List Nat) (lo hi : Nat),
    find_loop data (t.map c_toupper) fuel lo hi =
      find_loop data (t.map c_tolower) fuel lo hi
  | 0, _, _, _, _ => rfl
  | fuel + 1, data, t, lo, hi => by
    rw [find_loop_succ_text, find_loop_succ_text, strncasecmp_case]
    split_ifs <;> first | rfl | exact find_loop_case fuel data t _ _

/-- Fuel adequacy for the text-format search loop: fuel `hi - lo + 1`
always suffices, and the loop exits either on a case-insensitive match at
a probed line — returning `atoi` of its count field — or on `lo == mid`
with `(false, 0)`. -/
theorem find_loop_total_text (data hash : List Nat) :
    ∀ (fuel lo hi : Nat), lo ≤ hi → hi - lo < fuel →
    ∃ b c, find_loop data hash fuel lo hi = some (b, c) ∧
      (b = false → c = 0) ∧
      (b = true → ∃ i, lo ≤ i ∧ i ≤ hi ∧
        strncasecmp hash (data.drop (i * kTextHashLineBytes)) 40 = 0 ∧
        c = ((atoi ((data.drop (i * kTextHashLineBytes)).drop 41)).emod
          18446744073709551616).toNat) := by
  intro fuel
  induction fuel with
  | zero => intro lo hi h1 h2; omega
  | succ fuel ih =>
    intro lo hi h1 h2
    rw [find_loop_succ_text]
    by_cases hc : strncasecmp hash
        (data.drop (((lo + hi) / 2) * kTextHashLineBytes)) 40 = 0
    · rw [if_pos hc]
      refine ⟨true, _, rfl, by simp, ?_⟩
      intro _
      exact ⟨(lo + hi) / 2, by omega, by omega, hc, rfl⟩
    · rw [if_neg hc]
      by_cases hm : lo = (lo + hi) / 2
      · rw [if_pos hm]
        exact ⟨false, 0, rfl, by simp, by simp⟩
      · rw [if_neg hm]
        by_cases hlt : strncasecmp hash
            (data.drop (((lo + hi) / 2) * kTextHashLineBytes)) 40 < 0
        · rw [if_pos hlt]
          obtain ⟨b, c, heq, hf, ht⟩ := ih lo ((lo + hi) / 2) (by omega) (by omega)
          refine ⟨b, c, heq, hf, ?_⟩
          intro hb
          obtain ⟨i, hi1, hi2, hi3, hi4⟩ := ht hb
          exact ⟨i, hi1, by omega, hi3, hi4⟩
        · rw [if_neg hlt]
          obtain ⟨b, c, heq, hf, ht⟩ := ih ((lo + hi) / 2) hi (by omega) (by omega)
          refine ⟨b, c, heq, hf, ?_⟩
          intro hb
          obtain ⟨i, hi1, hi2, hi3, hi4⟩ := ht hb
          exact ⟨i, by omega, hi2, hi3, hi4⟩

end FindPwnedText

/-- C8: looking a 40-character hex target up in upper case and in lower
case yields identical results: the text program compares records with the
case-insensitive `strncasecmp`, and the binary program decodes hex digits
of either case to the same byte value before searching. -/
theorem C8_lookup_case_insensitive (t : List Nat) (data : List FindPwned.pwned_info)
    (file_data : List Nat) (file_size : Nat)
    ( _hlen : t.length = 40) ( _hhex : ∀ c ∈ t, 0 ≤ FindPwned.hexval c) :
    FindPwnedText.find_hash file_data file_size (t.map FindPwnedText.c_toupper) =
      FindPwnedText.find_hash file_data file_size (t.map FindPwnedText.c_tolower) ∧
    FindPwned.handle_input false (t.map FindPwnedText.c_toupper) data file_size =
      FindPwned.handle_input false (t.map FindPwnedText.c_tolower) data file_size := by
  constructor
  · unfold FindPwnedText.find_hash
    rw [List.length_map, List.length_map]
    split_ifs with h
    · rfl
    · exact FindPwnedText.find_loop_case _ file_data t _ _
  · have h1 : ∀ u : List Nat, FindPwned.handle_input false u data file_size =
      (if u.length ≠ 40 then some false else
        match FindPwned.decode_hex_hash u with
        | none => some false
        | some hash => (FindPwned.find_hash data file_size hash).map Prod.fst) :=
      fun u => rfl
    rw [h1, h1, List.length_map, List.length_map, FindPwned.decode_case]

/-- Witness for C8 at the concrete target of forty letter-a characters. -/
theorem C8_lookup_case_insensitive_witness :
    FindPwnedText.find_hash [] 0 ((List.replicate 40 97).map FindPwnedText.c_toupper) =
      FindPwnedText.find_hash [] 0 ((List.replicate 40 97).map FindPwnedText.c_tolower) ∧
    FindPwned.handle_input false ((List.replicate 40 97).map FindPwnedText.c_toupper) [] 0 =
      FindPwned.handle_input false ((List.replicate 40 97).map FindPwnedText.c_tolower) [] 0 :=
  C8_lookup_case_insensitive (List.replicate 40 97) [] [] 0 (by decide) (by decide)

/-- C1: the spec claims the binary search finds every record of a sorted
corpus.  The code exits on `lo == mid` having probed only `mid = (lo+hi)/2`,
which never reaches the top index, so the last record of any corpus with at
least two records is never found.  Evaluation at the failing input: a sorted
two-record corpus in each format (the first conjunct checks the ordering),
searched for exactly the hash stored in record 1 with stored count 5, where
both programs return found = false with count 0 instead of found = true with
count 5. -/
theorem C1_find_hash_misses_last_record :
    FindPwned.memcmp_bytes (FindPwned.c1_corpus.getD 0 FindPwned.default_info).hash
      ((FindPwned.c1_corpus.getD 1 FindPwned.default_info)).hash 20 = -1 ∧
    (FindPwned.c1_corpus.getD 1 FindPwned.default_info).count = 5 ∧
    FindPwned.find_hash FindPwned.c1_corpus 48 (1 :: List.replicate 19 0) =
      some (false, 0) ∧
    FindPwnedText.find_hash FindPwnedText.c1_corpus 126 (49 :: List.replicate 39 48) =
      some (false, 0) := by
  refine ⟨by decide, by decide, by decide, by decide⟩

/-- C5: for every corpus of `n ≥ 1` records and every target hash, the
binary-search loops of both programs terminate (each fuelled loop completes
within fuel `n`, including the `lo == hi == mid` case at `n = 1`): the
binary program exits either on an exact `memcmp` match at some probed
record — returning that record's count — or on the `lo == mid`
empty-interval condition with found = false and count 0; the text program
likewise, with the case-insensitive `strncasecmp` match returning `atoi`
of the matched line's count field. -/
theorem C5_find_hash_terminates (data : List FindPwned.pwned_info)
    (tdata : List Nat) (hash thash : List Nat) (n : Nat) (hn : 1 ≤ n)
    (hd : data.length = n) :
    (∃ b c, FindPwned.find_hash data (24 * n) hash = some (b, c) ∧
      (b = false → c = 0) ∧
      (b = true → ∃ i, i < n ∧
        FindPwned.memcmp_bytes hash (data.getD i FindPwned.default_info).hash 20 = 0 ∧
        c = (data.getD i FindPwned.default_info).count)) ∧
    (∃ b c, FindPwnedText.find_hash tdata (63 * n) thash = some (b, c) ∧
      (b = false → c = 0) ∧
      (b = true → ∃ i, i < n ∧
        FindPwnedText.strncasecmp thash
          (tdata.drop (i * FindPwnedText.kTextHashLineBytes)) 40 = 0 ∧
        c = ((FindPwnedText.atoi ((tdata.drop
            (i * FindPwnedText.kTextHashLineBytes)).drop 41)).emod
          18446744073709551616).toNat)) := by
  constructor
  · obtain ⟨b, c, heq, hf, ht⟩ :=
      FindPwned.find_loop_total data hash n 0 (n - 1) (by omega) (by omega)
    refine ⟨b, c, ?_, hf, ?_⟩
    · have h24 : 24 * n / 24 = n := by omega
      simpa [FindPwned.find_hash, FindPwned.kPwnedInfoSize, h24] using heq
    · intro hb
      obtain ⟨i, _, hi2, hi3, hi4⟩ := ht hb
      exact ⟨i, by omega, hi3, hi4⟩
  · by_cases hlen : thash.length ≠ 40
    · refine ⟨false, 0, ?_, by simp, by simp⟩
      rw [FindPwnedText.find_hash, if_pos hlen]
    · obtain ⟨b, c, heq, hf, ht⟩ :=
        FindPwnedText.find_loop_total_text tdata thash n 0 (n - 1) (by omega) (by omega)
      refine ⟨b, c, ?_, hf, ?_⟩
      · have h63 : 63 * n / 63 = n := by omega
        simpa [FindPwnedText.find_hash, FindPwnedText.kTextHashLineBytes, hlen, h63]
          using heq
      · intro hb
        obtain ⟨i, _, hi2, hi3, hi4⟩ := ht hb
        exact ⟨i, by omega, hi3, hi4⟩

/-- Witness for C5 at `n = 1`: a one-record binary corpus searched for an
absent hash, and a one-line text corpus searched for its own hash. -/
theorem C5_find_hash_terminates_witness :
    (∃ b c, FindPwned.find_hash [⟨List.replicate 20 0, 7⟩] (24 * 1) (List.replicate 20 1) =
        some (b, c) ∧
      (b = false → c = 0) ∧
      (b = true → ∃ i, i < 1 ∧
        FindPwned.memcmp_bytes (List.replicate 20 1)
          (([⟨List.replicate 20 0, 7⟩] : List FindPwned.pwned_info).getD i
            FindPwned.default_info).hash 20 = 0 ∧
        c = (([⟨List.replicate 20 0, 7⟩] : List FindPwned.pwned_info).getD i
          FindPwned.default_info).count)) ∧
    (∃ b c, FindPwnedText.find_hash (List.replicate 63 48) (63 * 1)
        (List.replicate 40 48) = some (b, c) ∧
      (b = false → c = 0) ∧
      (b = true → ∃ i, i < 1 ∧
        FindPwnedText.strncasecmp (List.replicate 40 48)
          ((List.replicate 63 48).drop (i * FindPwnedText.kTextHashLineBytes)) 40 = 0 ∧
        c = ((FindPwnedText.atoi (((List.replicate 63 48).drop
            (i * FindPwnedText.kTextHashLineBytes)).drop 41)).emod
          18446744073709551616).toNat)) :=
  C5_find_hash_terminates [⟨List.replicate 20 0, 7⟩] (List.replicate 63 48)
    (List.replicate 20 1) (List.replicate 40 48) 1 (by decide) (by decide)

/-- C6: both programs reject, before any lookup, a corpus whose byte length
is zero or not a multiple of the record width (24 bytes binary with exit
code 3, 63 bytes text with exit code 4), and accept a corpus whose length is
a positive exact multiple, then run every query. -/
theorem C6_corpus_size_validation (gp : Bool) (file_size : Nat)
    (data : List FindPwned.pwned_info) (file_data : List Nat)
    (inputs : List (List Nat)) :
    (FindPwned.main_run gp file_size data inputs = Except.error 3 ↔
      file_size = 0 ∨ file_size % 24 ≠ 0) ∧
    (¬(file_size = 0 ∨ file_size % 24 ≠ 0) →
      FindPwned.main_run gp file_size data inputs =
        Except.ok (inputs.map fun input =>
          FindPwned.handle_input gp input data file_size)) ∧
    (FindPwnedText.main_run gp file_size file_data inputs = Except.error 4 ↔
      file_size = 0 ∨ file_size % 63 ≠ 0) ∧
    (¬(file_size = 0 ∨ file_size % 63 ≠ 0) →
      FindPwnedText.main_run gp file_size file_data inputs =
        Except.ok (inputs.map fun input =>
          FindPwnedText.handle_input gp input file_data file_size)) := by
  by_cases h24 : file_size = 0 ∨ file_size % 24 ≠ 0 <;>
    by_cases h63 : file_size = 0 ∨ file_size % 63 ≠ 0 <;>
      simp [FindPwned.main_run, FindPwned.kPwnedInfoSize,
        FindPwnedText.main_run, FindPwnedText.kTextHashLineBytes, h24, h63]

/-- C7: a query whose text has length other than 40 — or, in the binary
program, a character that is not a hex digit — makes `handle_input` report
a per-query error and return not-found (`some false`) for every corpus
(so no search is consulted), and the batch map keeps processing the
remaining queries. -/
theorem C7_malformed_query_rejected (input : List Nat)
    (data : List FindPwned.pwned_info) (file_data : List Nat) (file_size : Nat)
    (rest : List (List Nat))
    (h : input.length ≠ 40 ∨ ∃ c ∈ input, FindPwned.hexval c < 0) :
    FindPwned.handle_input false input data file_size = some false ∧
    (input.length ≠ 40 →
      FindPwnedText.handle_input false input file_data file_size = some false) ∧
    ((input :: rest).map (fun q => FindPwned.handle_input false q data file_size) =
      FindPwned.handle_input false input data file_size ::
        rest.map (fun q => FindPwned.handle_input false q data file_size)) := by
  refine ⟨?_, ?_, by simp⟩
  · by_cases hlen : input.length = 40
    · rcases h with h | h
      · omega
      · have hdec := FindPwned.decode_hex_hash_none input (by omega) h
        simp [FindPwned.handle_input, hlen, hdec]
    · simp [FindPwned.handle_input, hlen]
  · intro hlen
    simp [FindPwnedText.handle_input, hlen]

/-- Witness for C7 at a concrete malformed query (the empty string). -/
theorem C7_malformed_query_rejected_witness :
    FindPwned.handle_input false [] [] 24 = some false ∧
    (([] : List Nat).length ≠ 40 →
      FindPwnedText.handle_input false [] [] 63 = some false) ∧
    (([] :: [[48]]).map (fun q => FindPwned.handle_input false q [] 24) =
      FindPwned.handle_input false [] [] 24 ::
        [[48]].map (fun q => FindPwned.handle_input false q [] 24)) :=
  C7_malformed_query_rejected [] [] [] 24 [[48]] (Or.inl (by decide))

/-- C10: the pointer-level SHA-1 entry points are total on NULL: a NULL
state yields NULL from `sha1_init_flags`, `sha1_update` and `sha1_end`;
and `sha1_update` with a NULL data pointer or zero size returns the state
pointer with the state unchanged. -/
theorem C10_null_pointer_totality :
    (∀ flags, Sha1.sha1_init_flags_ptr none flags = none) ∧
    (∀ data size, Sha1.sha1_update_ptr none data size = none) ∧
    (Sha1.sha1_end_ptr none = none) ∧
    (∀ st size, Sha1.sha1_update_ptr (some st) none size = some st) ∧
    (∀ st d, Sha1.sha1_update_ptr (some st) (some d) 0 = some st) := by
  refine ⟨fun _ => rfl, fun _ _ => rfl, rfl, fun _ _ => rfl, fun st d => ?_⟩
  simp [Sha1.sha1_update_ptr, Sha1.sha1_update]

/-- C3: the streaming property.  Initializing and applying `sha1_update`
once per fragment, in order, yields exactly the same state as initializing
and applying `sha1_update` once with the concatenation of all fragments
(any fragment sizes, including empty fragments and non-block-aligned
splits) — and hence the same final digest after `sha1_end`. -/
theorem C3_streaming_update (flags : Nat) (frags : List (List Nat)) :
    List.foldl Sha1.sha1_update (Sha1.sha1_init_flags flags) frags =
      Sha1.sha1_update (Sha1.sha1_init_flags flags) frags.flatten ∧
    Sha1.sha1_end (List.foldl Sha1.sha1_update (Sha1.sha1_init_flags flags) frags) =
      Sha1.sha1_end (Sha1.sha1_update (Sha1.sha1_init_flags flags) frags.flatten) := by
  have h := Sha1.sha1_foldl_update_eq frags (Sha1.sha1_init_flags flags)
    (by show (0 : Nat) < 18446744073709551616; norm_num)
  exact ⟨h, by rw [h]⟩

/-- C9: after `sha1_init_flags` and any sequence of `sha1_update` calls,
the byte counter modulo 64 equals the number of valid unprocessed input
bytes staged in the 64-byte block buffer — the first `bytes % 64` block
bytes are exactly the not-yet-compressed tail of the concatenated input —
and the freshly initialized state has counter 0 (an empty staging buffer). -/
theorem C9_staging_invariant (flags : Nat) (frags : List (List Nat)) :
    (Sha1.sha1_init_flags flags).bytes = 0 ∧
    (List.foldl Sha1.sha1_update (Sha1.sha1_init_flags flags) frags).bytes % 64 =
      frags.flatten.length % 64 ∧
    (List.foldl Sha1.sha1_update (Sha1.sha1_init_flags flags) frags).block.take
        ((List.foldl Sha1.sha1_update (Sha1.sha1_init_flags flags) frags).bytes % 64) =
      frags.flatten.drop (frags.flatten.length - frags.flatten.length % 64) := by
  have hb0 : (Sha1.sha1_init_flags flags).bytes < 18446744073709551616 := by
    show (0 : Nat) < 18446744073709551616; norm_num
  have h1 := Sha1.sha1_foldl_update_eq frags _ hb0
  have h2 := Sha1.sha1_update_eq_absorb (Sha1.sha1_init_flags flags) frags.flatten hb0
  obtain ⟨ha, hblk, ht⟩ := Sha1.sha1_absorb_inv flags frags.flatten
  rw [h1, h2]
  refine ⟨rfl, ?_, ?_⟩
  · rw [ha, Nat.mod_mod_of_dvd _ Sha1.dvd_word_mod]
  · rw [ha, Nat.mod_mod_of_dvd _ Sha1.dvd_word_mod]
    exact ht

/-- C4: for every state reachable by `sha1_init_flags` followed by any
sequence of `sha1_update` calls totalling `N` input bytes, `sha1_end`
appends `0x80`, zero-pads until exactly 8 bytes remain in the current
block (or in a freshly started block when fewer than 8 bytes remain after
the `0x80`), writes `8·N` as a 64-bit big-endian integer into those final
8 bytes, and runs the compression round on each block so filled
(`sha1_end_padding` states exactly that layout; the second conjunct
identifies the state's byte counter with `N`). -/
theorem C4_end_padding (flags : Nat) (frags : List (List Nat)) :
    Sha1.sha1_end (List.foldl Sha1.sha1_update (Sha1.sha1_init_flags flags) frags) =
      Sha1.sha1_end_padding
        (List.foldl Sha1.sha1_update (Sha1.sha1_init_flags flags) frags) ∧
    (List.foldl Sha1.sha1_update (Sha1.sha1_init_flags flags) frags).bytes =
      frags.flatten.length % 18446744073709551616 := by
  have hb0 : (Sha1.sha1_init_flags flags).bytes < 18446744073709551616 := by
    show (0 : Nat) < 18446744073709551616; norm_num
  have h1 := Sha1.sha1_foldl_update_eq frags _ hb0
  have h2 := Sha1.sha1_update_eq_absorb (Sha1.sha1_init_flags flags) frags.flatten hb0
  obtain ⟨ha, hblk, _⟩ := Sha1.sha1_absorb_inv flags frags.flatten
  refine ⟨?_, ?_⟩
  · rw [h1, h2]
    exact Sha1.sha1_end_eq_padding _ hblk
  · rw [h1, h2]
    exact ha

set_option maxRecDepth 1000000 in
set_option maxHeartbeats 400000000 in
/-- C2: the one-shot digest (`sha1_buffer_flags` with default flags:
init, update, end, text) renders the empty input as
`da39a3ee5e6b4b0d3255bfef95601890afd80709`, the bytes of `"abc"` as
`a9993e364706816aba3e25717850c26c9cd0d89d`, and a 1,000,000-byte buffer
of `'a'` (byte 97) as `34aa973cd4c4daa4f61eeb2bdbad27316534016f`. -/
theorem C2_known_vectors :
    Sha1.sha1_buffer_flags [] 0 = "da39a3ee5e6b4b0d3255bfef95601890afd80709" ∧
    Sha1.sha1_buffer_flags [97, 98, 99] 0 =
      "a9993e364706816aba3e25717850c26c9cd0d89d" ∧
    Sha1.sha1_buffer_flags (List.replicate 1000000 97) 0 =
      "34aa973cd4c4daa4f61eeb2bdbad27316534016f" := by
  refine ⟨by decide, by decide, ?_⟩
  show Sha1.sha1_text (Sha1.sha1_end (Sha1.sha1_update (Sha1.sha1_init_flags 0)
    (List.replicate 1000000 97))) = _
  rw [Sha1.sha1_updateC, Sha1.hashBlocksC_total]
  decide
